import Mathlib

/-!
Shallow embedding of `src/pyalgotrading/algobulls/api.py` (class `AlgoBullsAPI`),
a thin authenticated HTTP client for the AlgoBulls backend.  The network is
modelled as an explicit function from requests to responses; each client
operation returns its result, the updated client state, and the list of HTTP
requests it issued, in program order.
-/

/-- Model of a JSON value, as produced by `response.json()`.  Python maps JSON
`null` to `None`, objects to `dict`, arrays to `list`. -/
inductive Json where
  | null : Json
  | bool (b : Bool) : Json
  | num (n : Int) : Json
  | str (s : String) : Json
  | arr (elems : List Json) : Json
  | obj (fields : List (String × Json)) : Json

/-- Modelled from the spec: the `constants` module (imported by `api.py` as
`from ..constants import TradingType, TradingReportType`) is not under `src/`.
The spec describes `TradingType` as "one of \x7bBACKTESTING, PAPERTRADING,
REALTRADING\x7d — an enumerated tag selecting both the endpoint family and the
cache slot". -/
inductive TradingType where
  | BACKTESTING : TradingType
  | PAPERTRADING : TradingType
  | REALTRADING : TradingType
deriving DecidableEq

/-- Modelled from the spec: the enum member values (`trading_type.value`, sent
as the `tradingType` field of the registration body) are opaque distinct
values; the claims under verification do not depend on their exact choice. -/
def TradingType.value : TradingType → Int
  | .BACKTESTING => 3
  | .PAPERTRADING => 2
  | .REALTRADING => 1

/-- Modelled from the spec: `TradingReportType` is "one of \x7bPNL_TABLE,
STATS_TABLE, ORDER_HISTORY\x7d — selects the reporting endpoint". -/
inductive TradingReportType where
  | PNL_TABLE : TradingReportType
  | STATS_TABLE : TradingReportType
  | ORDER_HISTORY : TradingReportType
deriving DecidableEq

/-- Python is duck-typed: a `trading_type` argument may be any object, not only
a member of the `TradingType` enumeration.  The `invalid` constructor stands
for any object that is none of the three enum members; it is what the `else:
raise NotImplementedError` branches of the source react to. -/
inductive TradingTag where
  | valid (t : TradingType) : TradingTag
  | invalid (s : String) : TradingTag

/-- Same duck-typing device for the `report_type` argument of `get_reports`. -/
inductive ReportTag where
  | valid (r : TradingReportType) : ReportTag
  | invalid (s : String) : ReportTag

/-- An HTTP request as assembled by `_send_request` and handed to
`requests.request(method=..., headers=..., url=..., params=..., json=...)`. -/
structure HttpRequest where
  method : String
  url : String
  headers : Option (List (String × String))
  params : Option Json
  json_data : Option Json

/-- An HTTP response as observed by `_send_request`: its status code and the
result of parsing its body as JSON (`none` when `response.json()` raises
`JSONDecodeError`). -/
structure HttpResponse where
  status : Nat
  jsonBody : Option Json

/-- The network: a deterministic map from the request sent to the response
received.  Claims quantify over it. -/
abbrev Net := HttpRequest → HttpResponse

/-- Python `str(response)` for a `requests.Response`, used as the best-effort
payload when the body is not JSON. -/
def rawStr (r : HttpResponse) : String :=
  "<Response [" ++ toString r.status ++ "]>"

/-- The `response_json` local of `_send_request`: either the parsed JSON body
or, when parsing raised `JSONDecodeError`, the string `str(response)`. -/
inductive ResponsePayload where
  | json (j : Json) : ResponsePayload
  | str (s : String) : ResponsePayload

/-- Modelled from the spec: the `exceptions` module is not under `src/`.  The
spec gives the error taxonomy as "BadRequest (400), Unauthorized (401),
InsufficientBalance (402), Forbidden (403), ResourceNotFound (404),
InternalServerError (500), BaseError (any other non-200)", the kinds being the
exception classes `AlgoBullsAPIBadRequest`, `AlgoBullsAPIUnauthorizedError`,
`AlgoBullsAPIInsufficientBalanceError`, `AlgoBullsAPIForbiddenError`,
`AlgoBullsAPIResourceNotFoundError`,
`AlgoBullsAPIInternalServerErrorException`, `AlgoBullsAPIBaseException`. -/
inductive ErrorKind where
  | badRequest : ErrorKind
  | unauthorized : ErrorKind
  | insufficientBalance : ErrorKind
  | forbidden : ErrorKind
  | resourceNotFound : ErrorKind
  | internalServerError : ErrorKind
  | base : ErrorKind
deriving DecidableEq

/-- Modelled from the spec: "all carry method, URL, and response payload" —
an AlgoBulls API exception, constructed in `_send_request` as
`Error(method=method, url=url, response=response_json)`. -/
structure APIException where
  kind : ErrorKind
  method : String
  url : String
  response : ResponsePayload

/-- Everything a client operation can raise: a typed AlgoBulls API exception,
an uncaught `JSONDecodeError` (the second `response.json()` call at status 200
is outside the `try`), an `AttributeError` (`.get` on a non-dict JSON body in
`__fetch_key`), or a `NotImplementedError` (unrecognized enumerated tag). -/
inductive OpError where
  | api (e : APIException) : OpError
  | jsonDecode : OpError
  | attributeError : OpError
  | notImplemented : OpError

/-- Outcome of one `_send_request` call: the parsed body on 200, a raised API
exception on a recognized or generic error status, or an uncaught
`JSONDecodeError` when a 200 body fails the second, unguarded parse. -/
inductive SendResult where
  | ok (body : Json) : SendResult
  | apiError (e : APIException) : SendResult
  | decodeError : SendResult

/-- The mutable state of an `AlgoBullsAPI` instance: the `headers` attribute
(set by `set_access_token`) and the three per-trading-mode key cache slots. -/
structure AlgoBullsAPI where
  headers : Option (List (String × String))
  key_backtesting : Option Json
  key_papertrading : Option Json
  key_realtrading : Option Json

/-- `AlgoBullsAPI.SERVER_ENDPOINT` class attribute. -/
def SERVER_ENDPOINT : String := "http://127.0.0.1:8000/"

/-- `__init__`: headers and the three cache slots all start as `None`. -/
def AlgoBullsAPI.init : AlgoBullsAPI :=
  { headers := none
    key_backtesting := none
    key_papertrading := none
    key_realtrading := none }

/-- `set_access_token`: stores the token verbatim under the `Authorization`
header key. -/
def AlgoBullsAPI.set_access_token (self : AlgoBullsAPI) (access_token : String) :
    AlgoBullsAPI :=
  { self with headers := some [("Authorization", access_token)] }

/-- `_send_request`: builds the URL, attaches `self.headers` only when
`requires_authorization`, sends the request, parses the body with a string
fallback, then dispatches on the status code.  Returns the outcome together
with the single request it issued. -/
def AlgoBullsAPI.send_request (self : AlgoBullsAPI) (net : Net) (method : String)
    (endpoint : String) (base_url : String) (params : Option Json)
    (json_data : Option Json) (requires_authorization : Bool) :
    SendResult × HttpRequest :=
  let url := base_url ++ endpoint
  let headers := if requires_authorization then self.headers else none
  let req : HttpRequest :=
    { method := method, url := url, headers := headers, params := params
      json_data := json_data }
  let response := net req
  let response_json : ResponsePayload :=
    match response.jsonBody with
    | some j => ResponsePayload.json j
    | none => ResponsePayload.str (rawStr response)
  let result : SendResult :=
    if response.status = 200 then
      match response.jsonBody with
      | some j => SendResult.ok j
      | none => SendResult.decodeError
    else if response.status = 400 then
      SendResult.apiError ⟨ErrorKind.badRequest, method, url, response_json⟩
    else if response.status = 401 then
      SendResult.apiError ⟨ErrorKind.unauthorized, method, url, response_json⟩
    else if response.status = 402 then
      SendResult.apiError ⟨ErrorKind.insufficientBalance, method, url, response_json⟩
    else if response.status = 403 then
      SendResult.apiError ⟨ErrorKind.forbidden, method, url, response_json⟩
    else if response.status = 404 then
      SendResult.apiError ⟨ErrorKind.resourceNotFound, method, url, response_json⟩
    else if response.status = 500 then
      SendResult.apiError ⟨ErrorKind.internalServerError, method, url, response_json⟩
    else
      SendResult.apiError ⟨ErrorKind.base, method, url, response_json⟩
  (result, req)

/-- Lift a `_send_request` outcome into the operation-level error monad: a
raised API exception or `JSONDecodeError` simply propagates. -/
def SendResult.toExcept : SendResult → Except OpError Json
  | .ok body => Except.ok body
  | .apiError e => Except.error (OpError.api e)
  | .decodeError => Except.error OpError.jsonDecode

/-- Python `response.get('key')` on the parsed JSON body: on a dict, the value
of `'key'` (JSON `null` having been parsed to Python `None`, an explicit null
and an absent field are indistinguishable, both giving `None`); on any
non-dict body, `.get` does not exist and an `AttributeError` is raised. -/
def pyDictGet (j : Json) (k : String) : Except OpError (Option Json) :=
  match j with
  | Json.obj fields =>
      match fields.lookup k with
      | some Json.null => Except.ok none
      | some v => Except.ok (some v)
      | none => Except.ok none
  | _ => Except.error OpError.attributeError

/-- Python `f-string` interpolation of a key (`f'v2/user/strategy/\x7bkey\x7d/tweak'`):
`str()` of the JSON-derived Python value.  Container reprs are abbreviated
here; no claim observes them. -/
def pyStrOpt : Option Json → String
  | none => "None"
  | some Json.null => "None"
  | some (Json.bool true) => "True"
  | some (Json.bool false) => "False"
  | some (Json.num n) => toString n
  | some (Json.str s) => s
  | some (Json.arr _) => "[...]"
  | some (Json.obj _) => "\x7b...\x7d"

/-- A Python value that may be `None`, placed into a dict that is serialized
as JSON: `None` becomes JSON `null`. -/
def optJson : Option Json → Json
  | none => Json.null
  | some j => j

/-- Result of one client operation: the returned value or raised error, the
client state after the call (mutations performed before a raise persist), and
the HTTP requests issued, in order. -/
structure OpResult (α : Type u) where
  result : Except OpError α
  state : AlgoBullsAPI
  log : List HttpRequest

/-- `__fetch_key`: OPTIONS `v2/portfolio/strategy` with
`\x7b'strategyId': strategy_code, 'tradingType': trading_type.value\x7d`, then
`response.get('key')`.  Does not touch client state. -/
def AlgoBullsAPI.fetch_key (self : AlgoBullsAPI) (net : Net)
    (strategy_code : String) (trading_type : TradingType) :
    Except OpError (Option Json) × List HttpRequest :=
  let json_data := Json.obj
    [("strategyId", Json.str strategy_code),
     ("tradingType", Json.num trading_type.value)]
  let (res, req) := self.send_request net "options" "v2/portfolio/strategy"
    SERVER_ENDPOINT none (some json_data) true
  (match res with
   | SendResult.ok body => pyDictGet body "key"
   | SendResult.apiError e => Except.error (OpError.api e)
   | SendResult.decodeError => Except.error OpError.jsonDecode,
   [req])

/-- `__get_key`: per-mode lazy cache.  On a `None` slot, fetches and stores the
result (which may itself be `None` when the response carries no key); on a
populated slot, returns it without any request.  An unrecognized tag raises
`NotImplementedError`. -/
def AlgoBullsAPI.get_key (self : AlgoBullsAPI) (net : Net)
    (strategy_code : String) (trading_type : TradingTag) :
    OpResult (Option Json) :=
  match trading_type with
  | TradingTag.valid TradingType.BACKTESTING =>
      match self.key_backtesting with
      | some k => ⟨Except.ok (some k), self, []⟩
      | none =>
          match self.fetch_key net strategy_code TradingType.BACKTESTING with
          | (Except.ok k, log) => ⟨Except.ok k, { self with key_backtesting := k }, log⟩
          | (Except.error e, log) => ⟨Except.error e, self, log⟩
  | TradingTag.valid TradingType.PAPERTRADING =>
      match self.key_papertrading with
      | some k => ⟨Except.ok (some k), self, []⟩
      | none =>
          match self.fetch_key net strategy_code TradingType.PAPERTRADING with
          | (Except.ok k, log) => ⟨Except.ok k, { self with key_papertrading := k }, log⟩
          | (Except.error e, log) => ⟨Except.error e, self, log⟩
  | TradingTag.valid TradingType.REALTRADING =>
      match self.key_realtrading with
      | some k => ⟨Except.ok (some k), self, []⟩
      | none =>
          match self.fetch_key net strategy_code TradingType.REALTRADING with
          | (Except.ok k, log) => ⟨Except.ok k, { self with key_realtrading := k }, log⟩
          | (Except.error e, log) => ⟨Except.error e, self, log⟩
  | TradingTag.invalid _ => ⟨Except.error OpError.notImplemented, self, []⟩

/-- `create_strategy`: POST `v2/user/strategy/build/python`. -/
def AlgoBullsAPI.create_strategy (self : AlgoBullsAPI) (net : Net)
    (strategy_name strategy_details abc_version : String) : OpResult Json :=
  let json_data := Json.obj
    [("strategyName", Json.str strategy_name),
     ("strategyDetails", Json.str strategy_details),
     ("abcVersion", Json.str abc_version)]
  let (res, req) := self.send_request net "post" "v2/user/strategy/build/python"
    SERVER_ENDPOINT none (some json_data) true
  ⟨res.toExcept, self, [req]⟩

/-- `update_strategy`: PUT `v2/user/strategy/build/python`. -/
def AlgoBullsAPI.update_strategy (self : AlgoBullsAPI) (net : Net)
    (strategy_name strategy_details abc_version : String) : OpResult Json :=
  let json_data := Json.obj
    [("strategyName", Json.str strategy_name),
     ("strategyDetails", Json.str strategy_details),
     ("abcVersion", Json.str abc_version)]
  let (res, req) := self.send_request net "put" "v2/user/strategy/build/python"
    SERVER_ENDPOINT none (some json_data) true
  ⟨res.toExcept, self, [req]⟩

/-- `get_all_strategies`: OPTIONS `v2/user/strategy/build/python`. -/
def AlgoBullsAPI.get_all_strategies (self : AlgoBullsAPI) (net : Net) :
    OpResult Json :=
  let (res, req) := self.send_request net "options" "v2/user/strategy/build/python"
    SERVER_ENDPOINT none none true
  ⟨res.toExcept, self, [req]⟩

/-- `get_strategy_details`: GET `v2/user/strategy/build/python` with
`params=\x7b'strategyCode': strategy_code\x7d`. -/
def AlgoBullsAPI.get_strategy_details (self : AlgoBullsAPI) (net : Net)
    (strategy_code : String) : OpResult Json :=
  let params := Json.obj [("strategyCode", Json.str strategy_code)]
  let (res, req) := self.send_request net "get" "v2/user/strategy/build/python"
    SERVER_ENDPOINT (some params) none true
  ⟨res.toExcept, self, [req]⟩

/-- `search_instrument`: GET `v2/instrument/search` with
`requires_authorization=False`. -/
def AlgoBullsAPI.search_instrument (self : AlgoBullsAPI) (net : Net)
    (instrument : String) : OpResult Json :=
  let params := Json.obj [("instrument", Json.str instrument)]
  let (res, req) := self.send_request net "get" "v2/instrument/search"
    SERVER_ENDPOINT (some params) none false
  ⟨res.toExcept, self, [req]⟩

/-- `set_strategy_config`: resolves the key, then PATCH
`v2/user/strategy/.../tweak` with the config as body; returns `(key,
response)`. -/
def AlgoBullsAPI.set_strategy_config (self : AlgoBullsAPI) (net : Net)
    (strategy_code : String) (strategy_config : Json)
    (trading_type : TradingTag) : OpResult (Option Json × Json) :=
  match self.get_key net strategy_code trading_type with
  | ⟨Except.error e, st, log⟩ => ⟨Except.error e, st, log⟩
  | ⟨Except.ok key, st, log⟩ =>
      let endpoint := "v2/user/strategy/" ++ pyStrOpt key ++ "/tweak"
      let (res, req) := st.send_request net "patch" endpoint SERVER_ENDPOINT
        none (some strategy_config) true
      match res with
      | SendResult.ok body => ⟨Except.ok (key, body), st, log ++ [req]⟩
      | SendResult.apiError e => ⟨Except.error (OpError.api e), st, log ++ [req]⟩
      | SendResult.decodeError => ⟨Except.error OpError.jsonDecode, st, log ++ [req]⟩

/-- Mode-specific endpoint selection shared verbatim by `start_strategy_algotrading`
and `stop_strategy_algotrading` (the `if/elif/else` on `trading_type`). -/
def modeEndpoint : TradingType → String
  | TradingType.REALTRADING => "v2/portfolio/strategies"
  | TradingType.PAPERTRADING => "v2/papertrading/strategies"
  | TradingType.BACKTESTING => "v2/backtesting/strategies"

/-- `start_strategy_algotrading`: selects the mode endpoint (raising
`NotImplementedError` on an unrecognized mode), then inside a `try` resolves
the key and POSTs the start body; `AlgoBullsAPIForbiddenError` and
`AlgoBullsAPIInsufficientBalanceError` are caught and swallowed, the call
returning `None`. -/
def AlgoBullsAPI.start_strategy_algotrading (self : AlgoBullsAPI) (net : Net)
    (strategy_code : String) (trading_type : TradingTag) :
    OpResult (Option Json) :=
  match trading_type with
  | TradingTag.invalid _ => ⟨Except.error OpError.notImplemented, self, []⟩
  | TradingTag.valid t =>
      let endpoint := modeEndpoint t
      match self.get_key net strategy_code trading_type with
      | ⟨Except.error (OpError.api e), st, log⟩ =>
          match e.kind with
          | ErrorKind.forbidden => ⟨Except.ok none, st, log⟩
          | ErrorKind.insufficientBalance => ⟨Except.ok none, st, log⟩
          | _ => ⟨Except.error (OpError.api e), st, log⟩
      | ⟨Except.error e, st, log⟩ => ⟨Except.error e, st, log⟩
      | ⟨Except.ok key, st, log⟩ =>
          let json_data := Json.obj
            [("method", Json.str "update"), ("newVal", Json.num 1),
             ("key", optJson key), ("record", Json.obj [("status", Json.num 0)])]
          let (res, req) := st.send_request net "post" endpoint SERVER_ENDPOINT
            none (some json_data) true
          match res with
          | SendResult.ok body => ⟨Except.ok (some body), st, log ++ [req]⟩
          | SendResult.apiError e =>
              match e.kind with
              | ErrorKind.forbidden => ⟨Except.ok none, st, log ++ [req]⟩
              | ErrorKind.insufficientBalance => ⟨Except.ok none, st, log ++ [req]⟩
              | _ => ⟨Except.error (OpError.api e), st, log ++ [req]⟩
          | SendResult.decodeError => ⟨Except.error OpError.jsonDecode, st, log ++ [req]⟩

/-- `stop_strategy_algotrading`: same shape as start, with stop body
`\x7b'method': 'update', 'newVal': 0, 'key': key, 'record': \x7b'status': 2\x7d\x7d`
and the same swallow of Forbidden / InsufficientBalance. -/
def AlgoBullsAPI.stop_strategy_algotrading (self : AlgoBullsAPI) (net : Net)
    (strategy_code : String) (trading_type : TradingTag) :
    OpResult (Option Json) :=
  match trading_type with
  | TradingTag.invalid _ => ⟨Except.error OpError.notImplemented, self, []⟩
  | TradingTag.valid t =>
      let endpoint := modeEndpoint t
      match self.get_key net strategy_code trading_type with
      | ⟨Except.error (OpError.api e), st, log⟩ =>
          match e.kind with
          | ErrorKind.forbidden => ⟨Except.ok none, st, log⟩
          | ErrorKind.insufficientBalance => ⟨Except.ok none, st, log⟩
          | _ => ⟨Except.error (OpError.api e), st, log⟩
      | ⟨Except.error e, st, log⟩ => ⟨Except.error e, st, log⟩
      | ⟨Except.ok key, st, log⟩ =>
          let json_data := Json.obj
            [("method", Json.str "update"), ("newVal", Json.num 0),
             ("key", optJson key), ("record", Json.obj [("status", Json.num 2)])]
          let (res, req) := st.send_request net "post" endpoint SERVER_ENDPOINT
            none (some json_data) true
          match res with
          | SendResult.ok body => ⟨Except.ok (some body), st, log ++ [req]⟩
          | SendResult.apiError e =>
              match e.kind with
              | ErrorKind.forbidden => ⟨Except.ok none, st, log ++ [req]⟩
              | ErrorKind.insufficientBalance => ⟨Except.ok none, st, log ++ [req]⟩
              | _ => ⟨Except.error (OpError.api e), st, log ++ [req]⟩
          | SendResult.decodeError => ⟨Except.error OpError.jsonDecode, st, log ++ [req]⟩

/-- `get_job_status`: resolves the key, then GET `v2/user/strategy/status`
with `params=\x7b'key': key\x7d`.  No error handling: everything propagates. -/
def AlgoBullsAPI.get_job_status (self : AlgoBullsAPI) (net : Net)
    (strategy_code : String) (trading_type : TradingTag) : OpResult Json :=
  match self.get_key net strategy_code trading_type with
  | ⟨Except.error e, st, log⟩ => ⟨Except.error e, st, log⟩
  | ⟨Except.ok key, st, log⟩ =>
      let params := Json.obj [("key", optJson key)]
      let (res, req) := st.send_request net "get" "v2/user/strategy/status"
        SERVER_ENDPOINT (some params) none true
      ⟨res.toExcept, st, log ++ [req]⟩

/-- `get_logs`: resolves the key, then POST `v2/user/strategy/logs` with
`json_data=\x7b'key': key\x7d`. -/
def AlgoBullsAPI.get_logs (self : AlgoBullsAPI) (net : Net)
    (strategy_code : String) (trading_type : TradingTag) : OpResult Json :=
  match self.get_key net strategy_code trading_type with
  | ⟨Except.error e, st, log⟩ => ⟨Except.error e, st, log⟩
  | ⟨Except.ok key, st, log⟩ =>
      let json_data := Json.obj [("key", optJson key)]
      let (res, req) := st.send_request net "post" "v2/user/strategy/logs"
        SERVER_ENDPOINT none (some json_data) true
      ⟨res.toExcept, st, log ++ [req]⟩

/-- Report-kind endpoint selection in `get_reports` (the `if/elif/else` on
`report_type`, which runs before the key is resolved). -/
def reportEndpoint : TradingReportType → String
  | TradingReportType.PNL_TABLE => "v2/user/strategy/pltable"
  | TradingReportType.STATS_TABLE => "v2/user/strategy/statstable"
  | TradingReportType.ORDER_HISTORY => "v2/user/strategy/orderhistory"

/-- `get_reports`: selects the report endpoint (raising `NotImplementedError`
on an unrecognized report kind, before any request), resolves the key, then
GET with `params=\x7b'key': key\x7d`. -/
def AlgoBullsAPI.get_reports (self : AlgoBullsAPI) (net : Net)
    (strategy_code : String) (trading_type : TradingTag)
    (report_type : ReportTag) : OpResult Json :=
  match report_type with
  | ReportTag.invalid _ => ⟨Except.error OpError.notImplemented, self, []⟩
  | ReportTag.valid rt =>
      let endpoint := reportEndpoint rt
      match self.get_key net strategy_code trading_type with
      | ⟨Except.error e, st, log⟩ => ⟨Except.error e, st, log⟩
      | ⟨Except.ok key, st, log⟩ =>
          let params := Json.obj [("key", optJson key)]
          let (res, req) := st.send_request net "get" endpoint SERVER_ENDPOINT
            (some params) none true
          ⟨res.toExcept, st, log ++ [req]⟩

/-- The public operations of the client, with their arguments, for claims that
quantify over "any client operation". -/
inductive ClientOp where
  | createStrategy (name details ver : String) : ClientOp
  | updateStrategy (name details ver : String) : ClientOp
  | getAllStrategies : ClientOp
  | getStrategyDetails (code : String) : ClientOp
  | searchInstrument (instrument : String) : ClientOp
  | setStrategyConfig (code : String) (cfg : Json) (tag : TradingTag) : ClientOp
  | startAlgo (code : String) (tag : TradingTag) : ClientOp
  | stopAlgo (code : String) (tag : TradingTag) : ClientOp
  | jobStatus (code : String) (tag : TradingTag) : ClientOp
  | getLogs (code : String) (tag : TradingTag) : ClientOp
  | getReports (code : String) (tag : TradingTag) (rt : ReportTag) : ClientOp

/-- Erase the returned value of an operation, keeping the raised error, the
final state and the request log. -/
def OpResult.forget (r : OpResult α) : OpResult Unit :=
  ⟨r.result.map (fun _ => ()), r.state, r.log⟩

/-- Run any public operation, observing its error outcome, state change and
request log. -/
def runOp (op : ClientOp) (st : AlgoBullsAPI) (net : Net) : OpResult Unit :=
  match op with
  | ClientOp.createStrategy n d v => (st.create_strategy net n d v).forget
  | ClientOp.updateStrategy n d v => (st.update_strategy net n d v).forget
  | ClientOp.getAllStrategies => (st.get_all_strategies net).forget
  | ClientOp.getStrategyDetails c => (st.get_strategy_details net c).forget
  | ClientOp.searchInstrument i => (st.search_instrument net i).forget
  | ClientOp.setStrategyConfig c cfg tag => (st.set_strategy_config net c cfg tag).forget
  | ClientOp.startAlgo c tag => (st.start_strategy_algotrading net c tag).forget
  | ClientOp.stopAlgo c tag => (st.stop_strategy_algotrading net c tag).forget
  | ClientOp.jobStatus c tag => (st.get_job_status net c tag).forget
  | ClientOp.getLogs c tag => (st.get_logs net c tag).forget
  | ClientOp.getReports c tag rt => (st.get_reports net c tag rt).forget

/-- The key-dependent operations: those that resolve the strategy instance key
through `__get_key` before hitting their own endpoint. -/
def isKeyDependent : ClientOp → Bool
  | ClientOp.setStrategyConfig _ _ _ => true
  | ClientOp.startAlgo _ _ => true
  | ClientOp.stopAlgo _ _ => true
  | ClientOp.jobStatus _ _ => true
  | ClientOp.getLogs _ _ => true
  | ClientOp.getReports _ _ _ => true
  | _ => false

/-- Every operation except `search_instrument` sends its requests with
`requires_authorization=True`. -/
def requiresAuth : ClientOp → Bool
  | ClientOp.searchInstrument _ => false
  | _ => true

/-- The cache slot of a trading mode (`__key_backtesting` /
`__key_papertrading` / `__key_realtrading`). -/
def AlgoBullsAPI.slot (self : AlgoBullsAPI) : TradingType → Option Json
  | TradingType.BACKTESTING => self.key_backtesting
  | TradingType.PAPERTRADING => self.key_papertrading
  | TradingType.REALTRADING => self.key_realtrading

/-- A registration ("add strategy") request: `__fetch_key`'s OPTIONS call to
`v2/portfolio/strategy`.  No other request of the client uses this method/URL
pair. -/
def isRegistrationReq (r : HttpRequest) : Bool :=
  r.method == "options" && r.url == SERVER_ENDPOINT ++ "v2/portfolio/strategy"

/-- Number of registration requests in a request log. -/
def countReg (log : List HttpRequest) : Nat :=
  (log.filter isRegistrationReq).length

/-- The registration request `__fetch_key` issues, as a function of the state
it runs in. -/
def regRequest (st : AlgoBullsAPI) (strategy_code : String) (t : TradingType) :
    HttpRequest :=
  { method := "options"
    url := SERVER_ENDPOINT ++ "v2/portfolio/strategy"
    headers := st.headers
    params := none
    json_data := some (Json.obj
      [("strategyId", Json.str strategy_code),
       ("tradingType", Json.num t.value)]) }

/-- The request `_send_request` assembles from its arguments and the client
state (the second component of `send_request`). -/
def mkReq (st : AlgoBullsAPI) (method endpoint base_url : String)
    (params json_data : Option Json) (requires_authorization : Bool) :
    HttpRequest :=
  { method := method
    url := base_url ++ endpoint
    headers := if requires_authorization then st.headers else none
    params := params
    json_data := json_data }

/-- The `response_json` payload computed by `_send_request`: the parsed body,
or `str(response)` as fallback when the body is not JSON. -/
def payloadOf (r : HttpResponse) : ResponsePayload :=
  match r.jsonBody with
  | some j => ResponsePayload.json j
  | none => ResponsePayload.str (rawStr r)

/-- Write one cache slot, leaving the rest of the state alone. -/
def setSlot (st : AlgoBullsAPI) : TradingType → Option Json → AlgoBullsAPI
  | TradingType.BACKTESTING, v => { st with key_backtesting := v }
  | TradingType.PAPERTRADING, v => { st with key_papertrading := v }
  | TradingType.REALTRADING, v => { st with key_realtrading := v }

/-- A backend that answers every registration request with status 200 and a
JSON object carrying a usable `key` field. -/
def goodRegistration (net : Net) : Prop :=
  ∀ r, isRegistrationReq r = true →
    (net r).status = 200 ∧
    ∃ body k, (net r).jsonBody = some body ∧
      pyDictGet body "key" = Except.ok (some k)

/-- A backend on which every request comes back as the API error kind `K`. -/
def constKind (net : Net) (K : ErrorKind) : Prop :=
  ∀ (st : AlgoBullsAPI) (m ep bu : String) (p jd : Option Json) (a : Bool),
    ∃ e, (st.send_request net m ep bu p jd a).1 = SendResult.apiError e ∧
      e.kind = K

/-- All requests in a log carry exactly the given headers. -/
def headersAre (h : Option (List (String × String))) (log : List HttpRequest) : Bool :=
  log.all fun r => decide (r.headers = h)

/-- Concrete backend answering every request with status 403. -/
def net403 : Net := fun _ => ⟨403, some (Json.obj [])⟩

/-- Concrete backend answering every request with 200 and an empty JSON
object — in particular, registration responses carry no `key` field. -/
def net0 : Net := fun _ => ⟨200, some (Json.obj [])⟩

/-- The `strategyId` field of a request body, when present. -/
def strategyIdOf (r : HttpRequest) : Option String :=
  match r.json_data with
  | some (Json.obj fields) =>
      match fields.lookup "strategyId" with
      | some (Json.str s) => some s
      | _ => none
  | _ => none

/-- Concrete backend that assigns to each registered strategy a key equal to
its strategy code, so distinct strategy codes get distinct keys. -/
def netC4 : Net := fun r =>
  if isRegistrationReq r then
    match strategyIdOf r with
    | some s => ⟨200, some (Json.obj [("key", Json.str s)])⟩
    | none => ⟨200, some (Json.obj [])⟩
  else ⟨200, some (Json.obj [])⟩

/-- Concrete backend answering every request with 200 and a body carrying a
key `"K"`. -/
def netGoodKey : Net := fun _ => ⟨200, some (Json.obj [("key", Json.str "K")])⟩

/-- A client state whose backtesting slot already holds the key `"K"`. -/
def stWithKey : AlgoBullsAPI :=
  { AlgoBullsAPI.init with key_backtesting := some (Json.str "K") }

/-- A client state whose paper-trading slot holds a key, the others empty. -/
def stWithPaper : AlgoBullsAPI :=
  { AlgoBullsAPI.init with key_papertrading := some (Json.str "P") }

lemma send_request_snd (st : AlgoBullsAPI) (net : Net)
    (method endpoint base_url : String) (params json_data : Option Json)
    (auth : Bool) :
    (st.send_request net method endpoint base_url params json_data auth).2 =
      mkReq st method endpoint base_url params json_data auth := rfl

/-- Claim C1: for every HTTP response received by `_send_request`: on status
200 it returns the parsed JSON body; on 400, 401, 402, 403, 404, 500 it
raises the specific kinds BadRequest, Unauthorized, InsufficientBalance,
Forbidden, ResourceNotFound, InternalServerError respectively; on any other
non-200 status it raises the generic base kind; and every raised error
carries the HTTP method, the full URL, and the response payload. -/
theorem C1_send_request_status_dispatch (st : AlgoBullsAPI) (net : Net)
    (method endpoint base_url : String) (params json_data : Option Json)
    (auth : Bool) (resp : HttpResponse)
    (hresp : net (mkReq st method endpoint base_url params json_data auth) = resp) :
    ((resp.status = 200 → ∀ j, resp.jsonBody = some j →
      (st.send_request net method endpoint base_url params json_data auth).1 =
        SendResult.ok j) ∧
    (resp.status = 400 →
      (st.send_request net method endpoint base_url params json_data auth).1 =
        SendResult.apiError
          ⟨ErrorKind.badRequest, method, base_url ++ endpoint, payloadOf resp⟩) ∧
    (resp.status = 401 →
      (st.send_request net method endpoint base_url params json_data auth).1 =
        SendResult.apiError
          ⟨ErrorKind.unauthorized, method, base_url ++ endpoint, payloadOf resp⟩) ∧
    (resp.status = 402 →
      (st.send_request net method endpoint base_url params json_data auth).1 =
        SendResult.apiError
          ⟨ErrorKind.insufficientBalance, method, base_url ++ endpoint, payloadOf resp⟩) ∧
    (resp.status = 403 →
      (st.send_request net method endpoint base_url params json_data auth).1 =
        SendResult.apiError
          ⟨ErrorKind.forbidden, method, base_url ++ endpoint, payloadOf resp⟩) ∧
    (resp.status = 404 →
      (st.send_request net method endpoint base_url params json_data auth).1 =
        SendResult.apiError
          ⟨ErrorKind.resourceNotFound, method, base_url ++ endpoint, payloadOf resp⟩) ∧
    (resp.status = 500 →
      (st.send_request net method endpoint base_url params json_data auth).1 =
        SendResult.apiError
          ⟨ErrorKind.internalServerError, method, base_url ++ endpoint, payloadOf resp⟩) ∧
    (resp.status ∉ ([200, 400, 401, 402, 403, 404, 500] : List Nat) →
      (st.send_request net method endpoint base_url params json_data auth).1 =
        SendResult.apiError
          ⟨ErrorKind.base, method, base_url ++ endpoint, payloadOf resp⟩)) := by
  simp only [AlgoBullsAPI.send_request]
  simp only [mkReq] at hresp
  rw [hresp]
  refine ⟨?_, ?_, ?_, ?_, ?_, ?_, ?_, ?_⟩
  · intro h j hj
    simp [payloadOf, h, hj]
  · intro h
    simp [payloadOf, h]
  · intro h
    simp [payloadOf, h]
  · intro h
    simp [payloadOf, h]
  · intro h
    simp [payloadOf, h]
  · intro h
    simp [payloadOf, h]
  · intro h
    simp [payloadOf, h]
  · intro h
    simp only [List.mem_cons, not_or] at h
    obtain ⟨h200, h400, h401, h402, h403, h404, h500, _⟩ := h
    simp [payloadOf, h200, h400, h401, h402, h403, h404, h500]

/-- Claim C9: for every response whose body fails to parse as JSON,
`_send_request` substitutes `str(response)` as a best-effort payload, and on
a non-200 status the raised error carries that string fallback as its
response payload. -/
theorem C9_error_payload_string_fallback (st : AlgoBullsAPI) (net : Net)
    (method endpoint base_url : String) (params json_data : Option Json)
    (auth : Bool) (resp : HttpResponse)
    (hresp : net (mkReq st method endpoint base_url params json_data auth) = resp)
    (hbody : resp.jsonBody = none) (hstatus : resp.status ≠ 200) :
    ∃ e, (st.send_request net method endpoint base_url params json_data auth).1 =
        SendResult.apiError e ∧
      e.response = ResponsePayload.str (rawStr resp) ∧
      e.method = method ∧ e.url = base_url ++ endpoint := by
  simp only [AlgoBullsAPI.send_request]
  simp only [mkReq] at hresp
  rw [hresp, hbody]
  rw [if_neg hstatus]
  split_ifs <;> exact ⟨_, rfl, rfl, rfl, rfl⟩

/-- Claim C10: for every response with status 200 whose body is not valid
JSON, `_send_request` does not apply the string fallback: the second,
unguarded `response.json()` call raises `JSONDecodeError`, which escapes as
an untyped exception rather than any error kind of the client taxonomy. -/
theorem C10_status200_nonjson_decode_error (st : AlgoBullsAPI) (net : Net)
    (method endpoint base_url : String) (params json_data : Option Json)
    (auth : Bool) (resp : HttpResponse)
    (hresp : net (mkReq st method endpoint base_url params json_data auth) = resp)
    (hbody : resp.jsonBody = none) (hstatus : resp.status = 200) :
    (st.send_request net method endpoint base_url params json_data auth).1 =
      SendResult.decodeError := by
  simp only [AlgoBullsAPI.send_request]
  simp only [mkReq] at hresp
  rw [hresp, hbody, if_pos hstatus]

theorem C1_send_request_status_dispatch_witness :
    (AlgoBullsAPI.init.send_request (fun _ => ⟨404, none⟩) "get"
      "v2/user/strategy/status" SERVER_ENDPOINT none none true).1 =
      SendResult.apiError
        ⟨ErrorKind.resourceNotFound, "get",
          "http://127.0.0.1:8000/v2/user/strategy/status",
          ResponsePayload.str "<Response [404]>"⟩ := by
  have h := C1_send_request_status_dispatch AlgoBullsAPI.init (fun _ => ⟨404, none⟩) "get"
    "v2/user/strategy/status" SERVER_ENDPOINT none none true ⟨404, none⟩ rfl
  exact h.2.2.2.2.2.1 rfl

theorem C9_error_payload_string_fallback_witness :
    ∃ e, (AlgoBullsAPI.init.send_request (fun _ => ⟨503, none⟩) "get"
        "v2/user/strategy/status" SERVER_ENDPOINT none none true).1 =
        SendResult.apiError e ∧
      e.response = ResponsePayload.str "<Response [503]>" ∧
      e.method = "get" ∧ e.url = "http://127.0.0.1:8000/v2/user/strategy/status" := by
  have h := C9_error_payload_string_fallback AlgoBullsAPI.init (fun _ => ⟨503, none⟩) "get"
    "v2/user/strategy/status" SERVER_ENDPOINT none none true ⟨503, none⟩ rfl rfl
    (by decide)
  exact h

theorem C10_status200_nonjson_decode_error_witness :
    (AlgoBullsAPI.init.send_request (fun _ => ⟨200, none⟩) "get"
      "v2/instrument/search" SERVER_ENDPOINT none none false).1 =
      SendResult.decodeError := by
  exact C10_status200_nonjson_decode_error AlgoBullsAPI.init (fun _ => ⟨200, none⟩) "get"
    "v2/instrument/search" SERVER_ENDPOINT none none false ⟨200, none⟩ rfl rfl rfl

lemma setSlot_headers (st : AlgoBullsAPI) (t : TradingType) (v : Option Json) :
    (setSlot st t v).headers = st.headers := by
  cases t <;> rfl

lemma setSlot_slot_self (st : AlgoBullsAPI) (t : TradingType) (v : Option Json) :
    (setSlot st t v).slot t = v := by
  cases t <;> rfl

lemma setSlot_slot_other (st : AlgoBullsAPI) (t t' : TradingType) (v : Option Json)
    (h : t' ≠ t) : (setSlot st t v).slot t' = st.slot t' := by
  cases t <;> cases t' <;> simp_all [setSlot, AlgoBullsAPI.slot]

lemma fetch_key_req (st : AlgoBullsAPI) (net : Net) (c : String) (t : TradingType) :
    (st.fetch_key net c t).2 = [regRequest st c t] := rfl

lemma gk_invalid (st : AlgoBullsAPI) (net : Net) (c s : String) :
    st.get_key net c (TradingTag.invalid s) =
      ⟨Except.error OpError.notImplemented, st, []⟩ := rfl

lemma gk_cached (st : AlgoBullsAPI) (net : Net) (c : String) (t : TradingType)
    (k : Json) (h : st.slot t = some k) :
    st.get_key net c (TradingTag.valid t) = ⟨Except.ok (some k), st, []⟩ := by
  cases t <;> simp only [AlgoBullsAPI.slot] at h <;>
    simp [AlgoBullsAPI.get_key, h]

lemma gk_uncached (st : AlgoBullsAPI) (net : Net) (c : String) (t : TradingType)
    (h : st.slot t = none) :
    st.get_key net c (TradingTag.valid t) =
      match st.fetch_key net c t with
      | (Except.ok k, log) => ⟨Except.ok k, setSlot st t k, log⟩
      | (Except.error e, log) => ⟨Except.error e, st, log⟩ := by
  cases t <;> simp only [AlgoBullsAPI.slot] at h <;>
    simp [AlgoBullsAPI.get_key, h, setSlot]

lemma regRequest_isReg (st : AlgoBullsAPI) (c : String) (t : TradingType) :
    isRegistrationReq (regRequest st c t) = true := rfl

lemma fetch_key_good (st : AlgoBullsAPI) (net : Net) (c : String)
    (t : TradingType) (hreg : goodRegistration net) :
    ∃ k, st.fetch_key net c t = (Except.ok (some k), [regRequest st c t]) := by
  obtain ⟨hstat, body, k, hbody, hget⟩ := hreg (regRequest st c t) (regRequest_isReg st c t)
  refine ⟨k, ?_⟩
  simp only [regRequest] at hstat hbody
  simp only [AlgoBullsAPI.fetch_key, AlgoBullsAPI.send_request, regRequest]
  simp [hstat, hbody, hget]

lemma gk_good (st : AlgoBullsAPI) (net : Net) (c : String) (t : TradingType)
    (hreg : goodRegistration net) (h : st.slot t = none) :
    ∃ k, st.get_key net c (TradingTag.valid t) =
      ⟨Except.ok (some k), setSlot st t (some k), [regRequest st c t]⟩ := by
  obtain ⟨k, hf⟩ := fetch_key_good st net c t hreg
  exact ⟨k, by rw [gk_uncached st net c t h, hf]⟩

lemma gk_headers (st : AlgoBullsAPI) (net : Net) (c : String) (tag : TradingTag) :
    (st.get_key net c tag).state.headers = st.headers := by
  cases tag with
  | invalid s => rfl
  | valid t =>
    rcases hs : st.slot t with _ | k
    · rcases hf : st.fetch_key net c t with ⟨res, log⟩
      rw [gk_uncached st net c t hs, hf]
      cases res <;> simp [setSlot_headers]
    · rw [gk_cached st net c t k hs]

lemma gk_frame (st : AlgoBullsAPI) (net : Net) (c : String) (t t' : TradingType)
    (h : t' ≠ t) :
    (st.get_key net c (TradingTag.valid t)).state.slot t' = st.slot t' := by
  rcases hs : st.slot t with _ | k
  · rcases hf : st.fetch_key net c t with ⟨res, log⟩
    rw [gk_uncached st net c t hs, hf]
    cases res <;> simp [setSlot_slot_other _ _ _ _ h]
  · rw [gk_cached st net c t k hs]

lemma fetch_key_congr (st₁ st₂ : AlgoBullsAPI) (net : Net) (c : String)
    (t : TradingType) (hh : st₁.headers = st₂.headers) :
    st₁.fetch_key net c t = st₂.fetch_key net c t := by
  simp [AlgoBullsAPI.fetch_key, AlgoBullsAPI.send_request, hh]

lemma gk_congr (st₁ st₂ : AlgoBullsAPI) (net : Net) (c : String)
    (t : TradingType) (hh : st₁.headers = st₂.headers)
    (hs : st₁.slot t = st₂.slot t) :
    (st₁.get_key net c (TradingTag.valid t)).result =
        (st₂.get_key net c (TradingTag.valid t)).result ∧
      (st₁.get_key net c (TradingTag.valid t)).log =
        (st₂.get_key net c (TradingTag.valid t)).log ∧
      (st₁.get_key net c (TradingTag.valid t)).state.slot t =
        (st₂.get_key net c (TradingTag.valid t)).state.slot t := by
  rcases h1 : st₁.slot t with _ | k
  · have h2 : st₂.slot t = none := by rw [← hs, h1]
    rw [gk_uncached st₁ net c t h1, gk_uncached st₂ net c t h2,
      fetch_key_congr st₁ st₂ net c t hh]
    rcases hf : st₂.fetch_key net c t with ⟨res, log⟩
    cases res <;> simp [setSlot_slot_self, hs]
  · have h2 : st₂.slot t = some k := by rw [← hs, h1]
    rw [gk_cached st₁ net c t k h1, gk_cached st₂ net c t k h2]
    exact ⟨rfl, rfl, by rw [h1, h2]⟩

lemma countReg_nil : countReg [] = 0 := rfl

lemma countReg_append (l1 l2 : List HttpRequest) :
    countReg (l1 ++ l2) = countReg l1 + countReg l2 := by
  simp [countReg, List.filter_append]

lemma config_decomp (st : AlgoBullsAPI) (net : Net) (c : String) (cfg : Json)
    (tag : TradingTag) :
    (st.set_strategy_config net c cfg tag).state = (st.get_key net c tag).state ∧
      countReg (st.set_strategy_config net c cfg tag).log =
        countReg (st.get_key net c tag).log := by
  rcases hk : st.get_key net c tag with ⟨res, st', log⟩
  cases res with
  | error e =>
      simp [AlgoBullsAPI.set_strategy_config, hk]
  | ok key =>
      rcases hsr : st'.send_request net "patch"
          ("v2/user/strategy/" ++ pyStrOpt key ++ "/tweak") SERVER_ENDPOINT
          none (some cfg) true with ⟨res2, req2⟩
      have hreq : req2 = mkReq st' "patch"
          ("v2/user/strategy/" ++ pyStrOpt key ++ "/tweak") SERVER_ENDPOINT
          none (some cfg) true := by
        rw [← send_request_snd st' net "patch"
          ("v2/user/strategy/" ++ pyStrOpt key ++ "/tweak") SERVER_ENDPOINT
          none (some cfg) true, hsr]
      have hreg2 : isRegistrationReq req2 = false := by rw [hreq]; rfl
      cases res2 <;>
        simp [AlgoBullsAPI.set_strategy_config, hk, hsr, countReg_append,
          countReg, List.filter, hreg2]

lemma start_decomp (st : AlgoBullsAPI) (net : Net) (c : String) (tag : TradingTag) :
    (st.start_strategy_algotrading net c tag).state = (st.get_key net c tag).state ∧
      countReg (st.start_strategy_algotrading net c tag).log =
        countReg (st.get_key net c tag).log := by
  cases tag with
  | invalid s => simp [AlgoBullsAPI.start_strategy_algotrading, gk_invalid]
  | valid t =>
      rcases hk : st.get_key net c (TradingTag.valid t) with ⟨res, st', log⟩
      cases res with
      | error e =>
          cases e with
          | api ex =>
              cases hkind : ex.kind <;>
                simp [AlgoBullsAPI.start_strategy_algotrading, hk, hkind]
          | jsonDecode => simp [AlgoBullsAPI.start_strategy_algotrading, hk]
          | attributeError => simp [AlgoBullsAPI.start_strategy_algotrading, hk]
          | notImplemented => simp [AlgoBullsAPI.start_strategy_algotrading, hk]
      | ok key =>
          rcases hsr : st'.send_request net "post" (modeEndpoint t) SERVER_ENDPOINT
              none (some (Json.obj
                [("method", Json.str "update"), ("newVal", Json.num 1),
                 ("key", optJson key), ("record", Json.obj [("status", Json.num 0)])]))
              true with ⟨res2, req2⟩
          have hreq : req2 = mkReq st' "post" (modeEndpoint t) SERVER_ENDPOINT
              none (some (Json.obj
                [("method", Json.str "update"), ("newVal", Json.num 1),
                 ("key", optJson key), ("record", Json.obj [("status", Json.num 0)])]))
              true := by
            rw [← send_request_snd st' net "post" (modeEndpoint t) SERVER_ENDPOINT
              none (some (Json.obj
                [("method", Json.str "update"), ("newVal", Json.num 1),
                 ("key", optJson key), ("record", Json.obj [("status", Json.num 0)])]))
              true, hsr]
          have hreg2 : isRegistrationReq req2 = false := by rw [hreq]; rfl
          cases res2 with
          | ok body =>
              simp [AlgoBullsAPI.start_strategy_algotrading, hk, hsr,
                countReg_append, countReg, List.filter, hreg2]
          | apiError e =>
              cases hkind : e.kind <;>
                simp [AlgoBullsAPI.start_strategy_algotrading, hk, hsr, hkind,
                  countReg_append, countReg, List.filter, hreg2]
          | decodeError =>
              simp [AlgoBullsAPI.start_strategy_algotrading, hk, hsr,
                countReg_append, countReg, List.filter, hreg2]

lemma stop_decomp (st : AlgoBullsAPI) (net : Net) (c : String) (tag : TradingTag) :
    (st.stop_strategy_algotrading net c tag).state = (st.get_key net c tag).state ∧
      countReg (st.stop_strategy_algotrading net c tag).log =
        countReg (st.get_key net c tag).log := by
  cases tag with
  | invalid s => simp [AlgoBullsAPI.stop_strategy_algotrading, gk_invalid]
  | valid t =>
      rcases hk : st.get_key net c (TradingTag.valid t) with ⟨res, st', log⟩
      cases res with
      | error e =>
          cases e with
          | api ex =>
              cases hkind : ex.kind <;>
                simp [AlgoBullsAPI.stop_strategy_algotrading, hk, hkind]
          | jsonDecode => simp [AlgoBullsAPI.stop_strategy_algotrading, hk]
          | attributeError => simp [AlgoBullsAPI.stop_strategy_algotrading, hk]
          | notImplemented => simp [AlgoBullsAPI.stop_strategy_algotrading, hk]
      | ok key =>
          rcases hsr : st'.send_request net "post" (modeEndpoint t) SERVER_ENDPOINT
              none (some (Json.obj
                [("method", Json.str "update"), ("newVal", Json.num 0),
                 ("key", optJson key), ("record", Json.obj [("status", Json.num 2)])]))
              true with ⟨res2, req2⟩
          have hreq : req2 = mkReq st' "post" (modeEndpoint t) SERVER_ENDPOINT
              none (some (Json.obj
                [("method", Json.str "update"), ("newVal", Json.num 0),
                 ("key", optJson key), ("record", Json.obj [("status", Json.num 2)])]))
              true := by
            rw [← send_request_snd st' net "post" (modeEndpoint t) SERVER_ENDPOINT
              none (some (Json.obj
                [("method", Json.str "update"), ("newVal", Json.num 0),
                 ("key", optJson key), ("record", Json.obj [("status", Json.num 2)])]))
              true, hsr]
          have hreg2 : isRegistrationReq req2 = false := by rw [hreq]; rfl
          cases res2 with
          | ok body =>
              simp [AlgoBullsAPI.stop_strategy_algotrading, hk, hsr,
                countReg_append, countReg, List.filter, hreg2]
          | apiError e =>
              cases hkind : e.kind <;>
                simp [AlgoBullsAPI.stop_strategy_algotrading, hk, hsr, hkind,
                  countReg_append, countReg, List.filter, hreg2]
          | decodeError =>
              simp [AlgoBullsAPI.stop_strategy_algotrading, hk, hsr,
                countReg_append, countReg, List.filter, hreg2]

lemma job_status_decomp (st : AlgoBullsAPI) (net : Net) (c : String)
    (tag : TradingTag) :
    (st.get_job_status net c tag).state = (st.get_key net c tag).state ∧
      countReg (st.get_job_status net c tag).log =
        countReg (st.get_key net c tag).log := by
  rcases hk : st.get_key net c tag with ⟨res, st', log⟩
  cases res with
  | error e => simp [AlgoBullsAPI.get_job_status, hk]
  | ok key =>
      rcases hsr : st'.send_request net "get" "v2/user/strategy/status"
          SERVER_ENDPOINT (some (Json.obj [("key", optJson key)])) none true
          with ⟨res2, req2⟩
      have hreq : req2 = mkReq st' "get" "v2/user/strategy/status"
          SERVER_ENDPOINT (some (Json.obj [("key", optJson key)])) none true := by
        rw [← send_request_snd st' net "get" "v2/user/strategy/status"
          SERVER_ENDPOINT (some (Json.obj [("key", optJson key)])) none true, hsr]
      have hreg2 : isRegistrationReq req2 = false := by rw [hreq]; rfl
      simp [AlgoBullsAPI.get_job_status, hk, hsr, countReg_append, countReg,
        List.filter, hreg2]

lemma logs_decomp (st : AlgoBullsAPI) (net : Net) (c : String) (tag : TradingTag) :
    (st.get_logs net c tag).state = (st.get_key net c tag).state ∧
      countReg (st.get_logs net c tag).log =
        countReg (st.get_key net c tag).log := by
  rcases hk : st.get_key net c tag with ⟨res, st', log⟩
  cases res with
  | error e => simp [AlgoBullsAPI.get_logs, hk]
  | ok key =>
      rcases hsr : st'.send_request net "post" "v2/user/strategy/logs"
          SERVER_ENDPOINT none (some (Json.obj [("key", optJson key)])) true
          with ⟨res2, req2⟩
      have hreq : req2 = mkReq st' "post" "v2/user/strategy/logs"
          SERVER_ENDPOINT none (some (Json.obj [("key", optJson key)])) true := by
        rw [← send_request_snd st' net "post" "v2/user/strategy/logs"
          SERVER_ENDPOINT none (some (Json.obj [("key", optJson key)])) true, hsr]
      have hreg2 : isRegistrationReq req2 = false := by rw [hreq]; rfl
      simp [AlgoBullsAPI.get_logs, hk, hsr, countReg_append, countReg,
        List.filter, hreg2]

lemma reports_decomp_valid (st : AlgoBullsAPI) (net : Net) (c : String)
    (tag : TradingTag) (r : TradingReportType) :
    (st.get_reports net c tag (ReportTag.valid r)).state = (st.get_key net c tag).state ∧
      countReg (st.get_reports net c tag (ReportTag.valid r)).log =
        countReg (st.get_key net c tag).log := by
  rcases hk : st.get_key net c tag with ⟨res, st', log⟩
  cases res with
  | error e => simp [AlgoBullsAPI.get_reports, hk]
  | ok key =>
      rcases hsr : st'.send_request net "get" (reportEndpoint r)
          SERVER_ENDPOINT (some (Json.obj [("key", optJson key)])) none true
          with ⟨res2, req2⟩
      have hreq : req2 = mkReq st' "get" (reportEndpoint r)
          SERVER_ENDPOINT (some (Json.obj [("key", optJson key)])) none true := by
        rw [← send_request_snd st' net "get" (reportEndpoint r)
          SERVER_ENDPOINT (some (Json.obj [("key", optJson key)])) none true, hsr]
      have hreg2 : isRegistrationReq req2 = false := by rw [hreq]; rfl
      simp [AlgoBullsAPI.get_reports, hk, hsr, countReg_append, countReg,
        List.filter, hreg2]

lemma reports_decomp_invalid (st : AlgoBullsAPI) (net : Net) (c : String)
    (tag : TradingTag) (s : String) :
    st.get_reports net c tag (ReportTag.invalid s) =
      ⟨Except.error OpError.notImplemented, st, []⟩ := rfl

lemma gk_twice (st : AlgoBullsAPI) (net : Net) (c : String) (tag : TradingTag)
    (hreg : goodRegistration net) :
    countReg (st.get_key net c tag).log +
        countReg (((st.get_key net c tag).state).get_key net c tag).log ≤ 1 ∧
      countReg (((st.get_key net c tag).state).get_key net c tag).log = 0 := by
  cases tag with
  | invalid s => simp [gk_invalid, countReg_nil]
  | valid t =>
      rcases hs : st.slot t with _ | k
      · obtain ⟨k, hgk⟩ := gk_good st net c t hreg hs
        rw [hgk]
        have hs2 : (setSlot st t (some k)).slot t = some k := setSlot_slot_self st t (some k)
        rw [gk_cached (setSlot st t (some k)) net c t k hs2]
        simp [countReg_nil]
        rfl
      · rw [gk_cached st net c t k hs]
        rw [gk_cached st net c t k hs]
        simp [countReg_nil]

/-- Claim C3 (amended): provided every registration response has status 200
and carries a usable `key` field, calling any key-dependent operation twice
in sequence issues at most one registration request in total, and the second
call issues none (the key comes from the cache slot). -/
theorem C3_at_most_one_registration_amended (op : ClientOp) (st : AlgoBullsAPI) (net : Net)
    (hop : isKeyDependent op = true) (hreg : goodRegistration net) :
    countReg (runOp op st net).log +
        countReg (runOp op (runOp op st net).state net).log ≤ 1 ∧
      countReg (runOp op (runOp op st net).state net).log = 0 := by
  cases op with
  | createStrategy n d v => simp [isKeyDependent] at hop
  | updateStrategy n d v => simp [isKeyDependent] at hop
  | getAllStrategies => simp [isKeyDependent] at hop
  | getStrategyDetails c => simp [isKeyDependent] at hop
  | searchInstrument i => simp [isKeyDependent] at hop
  | setStrategyConfig c cfg tag =>
      have d1 := config_decomp st net c cfg tag
      simp only [runOp, OpResult.forget]
      have d2 := config_decomp (st.set_strategy_config net c cfg tag).state net c cfg tag
      have g := gk_twice st net c tag hreg
      rw [d1.2, d2.2, d1.1]
      exact g
  | startAlgo c tag =>
      have d1 := start_decomp st net c tag
      simp only [runOp, OpResult.forget]
      have d2 := start_decomp (st.start_strategy_algotrading net c tag).state net c tag
      have g := gk_twice st net c tag hreg
      rw [d1.2, d2.2, d1.1]
      exact g
  | stopAlgo c tag =>
      have d1 := stop_decomp st net c tag
      simp only [runOp, OpResult.forget]
      have d2 := stop_decomp (st.stop_strategy_algotrading net c tag).state net c tag
      have g := gk_twice st net c tag hreg
      rw [d1.2, d2.2, d1.1]
      exact g
  | jobStatus c tag =>
      have d1 := job_status_decomp st net c tag
      simp only [runOp, OpResult.forget]
      have d2 := job_status_decomp (st.get_job_status net c tag).state net c tag
      have g := gk_twice st net c tag hreg
      rw [d1.2, d2.2, d1.1]
      exact g
  | getLogs c tag =>
      have d1 := logs_decomp st net c tag
      simp only [runOp, OpResult.forget]
      have d2 := logs_decomp (st.get_logs net c tag).state net c tag
      have g := gk_twice st net c tag hreg
      rw [d1.2, d2.2, d1.1]
      exact g
  | getReports c tag rt =>
      cases rt with
      | invalid s =>
          simp only [runOp, OpResult.forget, reports_decomp_invalid]
          simp [countReg_nil]
      | valid r =>
          have d1 := reports_decomp_valid st net c tag r
          simp only [runOp, OpResult.forget]
          have d2 := reports_decomp_valid
            (st.get_reports net c tag (ReportTag.valid r)).state net c tag r
          have g := gk_twice st net c tag hreg
          rw [d1.2, d2.2, d1.1]
          exact g

lemma headersAre_append (h : Option (List (String × String)))
    (l1 l2 : List HttpRequest) :
    headersAre h (l1 ++ l2) = (headersAre h l1 && headersAre h l2) := by
  simp [headersAre, List.all_append]

lemma gk_log_cases (st : AlgoBullsAPI) (net : Net) (c : String) (tag : TradingTag) :
    (st.get_key net c tag).log = [] ∨
      ∃ t, tag = TradingTag.valid t ∧
        (st.get_key net c tag).log = [regRequest st c t] := by
  cases tag with
  | invalid s => left; rfl
  | valid t =>
      rcases hs : st.slot t with _ | k
      · right
        refine ⟨t, rfl, ?_⟩
        rw [gk_uncached st net c t hs]
        rcases hf : st.fetch_key net c t with ⟨res, log⟩
        have hlog : log = [regRequest st c t] := by
          rw [← fetch_key_req st net c t, hf]
        cases res <;> simp [hlog]
      · left; rw [gk_cached st net c t k hs]

lemma gk_log_headers (st : AlgoBullsAPI) (net : Net) (c : String) (tag : TradingTag) :
    headersAre st.headers (st.get_key net c tag).log = true := by
  rcases gk_log_cases st net c tag with h | ⟨t, _, h⟩ <;> rw [h] <;>
    simp [headersAre, regRequest]

lemma mkReq_auth_headers (st : AlgoBullsAPI) (m ep bu : String)
    (p j : Option Json) :
    headersAre st.headers [mkReq st m ep bu p j true] = true := by
  simp [headersAre, mkReq]

lemma config_headers (st : AlgoBullsAPI) (net : Net) (c : String) (cfg : Json)
    (tag : TradingTag) :
    headersAre st.headers (st.set_strategy_config net c cfg tag).log = true := by
  rcases hk : st.get_key net c tag with ⟨res, st', log⟩
  have hst' : st'.headers = st.headers := by
    rw [← gk_headers st net c tag, hk]
  have hklog : headersAre st.headers log = true := by
    have h := gk_log_headers st net c tag
    rw [hk] at h
    exact h
  cases res with
  | error e => simp [AlgoBullsAPI.set_strategy_config, hk, hklog]
  | ok key =>
      rcases hsr : st'.send_request net "patch"
          ("v2/user/strategy/" ++ pyStrOpt key ++ "/tweak") SERVER_ENDPOINT
          none (some cfg) true with ⟨res2, req2⟩
      have hreq : req2 = mkReq st' "patch"
          ("v2/user/strategy/" ++ pyStrOpt key ++ "/tweak") SERVER_ENDPOINT
          none (some cfg) true := by
        rw [← send_request_snd st' net "patch"
          ("v2/user/strategy/" ++ pyStrOpt key ++ "/tweak") SERVER_ENDPOINT
          none (some cfg) true, hsr]
      have h2 : headersAre st.headers [req2] = true := by
        rw [hreq, ← hst']
        exact mkReq_auth_headers st' _ _ _ _ _
      cases res2 <;>
        simp [AlgoBullsAPI.set_strategy_config, hk, hsr, headersAre_append,
          hklog, h2]

lemma start_headers (st : AlgoBullsAPI) (net : Net) (c : String) (tag : TradingTag) :
    headersAre st.headers (st.start_strategy_algotrading net c tag).log = true := by
  cases tag with
  | invalid s => simp [AlgoBullsAPI.start_strategy_algotrading, headersAre]
  | valid t =>
      rcases hk : st.get_key net c (TradingTag.valid t) with ⟨res, st', log⟩
      have hst' : st'.headers = st.headers := by
        rw [← gk_headers st net c (TradingTag.valid t), hk]
      have hklog : headersAre st.headers log = true := by
        have h := gk_log_headers st net c (TradingTag.valid t)
        rw [hk] at h
        exact h
      cases res with
      | error e =>
          cases e with
          | api ex =>
              cases hkind : ex.kind <;>
                simp [AlgoBullsAPI.start_strategy_algotrading, hk, hkind, hklog]
          | jsonDecode => simp [AlgoBullsAPI.start_strategy_algotrading, hk, hklog]
          | attributeError => simp [AlgoBullsAPI.start_strategy_algotrading, hk, hklog]
          | notImplemented => simp [AlgoBullsAPI.start_strategy_algotrading, hk, hklog]
      | ok key =>
          rcases hsr : st'.send_request net "post" (modeEndpoint t) SERVER_ENDPOINT
              none (some (Json.obj
                [("method", Json.str "update"), ("newVal", Json.num 1),
                 ("key", optJson key), ("record", Json.obj [("status", Json.num 0)])]))
              true with ⟨res2, req2⟩
          have hreq : req2 = mkReq st' "post" (modeEndpoint t) SERVER_ENDPOINT
              none (some (Json.obj
                [("method", Json.str "update"), ("newVal", Json.num 1),
                 ("key", optJson key), ("record", Json.obj [("status", Json.num 0)])]))
              true := by
            rw [← send_request_snd st' net "post" (modeEndpoint t) SERVER_ENDPOINT
              none (some (Json.obj
                [("method", Json.str "update"), ("newVal", Json.num 1),
                 ("key", optJson key), ("record", Json.obj [("status", Json.num 0)])]))
              true, hsr]
          have h2 : headersAre st.headers [req2] = true := by
            rw [hreq, ← hst']
            exact mkReq_auth_headers st' _ _ _ _ _
          cases res2 with
          | ok body =>
              simp [AlgoBullsAPI.start_strategy_algotrading, hk, hsr,
                headersAre_append, hklog, h2]
          | apiError e =>
              cases hkind : e.kind <;>
                simp [AlgoBullsAPI.start_strategy_algotrading, hk, hsr, hkind,
                  headersAre_append, hklog, h2]
          | decodeError =>
              simp [AlgoBullsAPI.start_strategy_algotrading, hk, hsr,
                headersAre_append, hklog, h2]

lemma stop_headers (st : AlgoBullsAPI) (net : Net) (c : String) (tag : TradingTag) :
    headersAre st.headers (st.stop_strategy_algotrading net c tag).log = true := by
  cases tag with
  | invalid s => simp [AlgoBullsAPI.stop_strategy_algotrading, headersAre]
  | valid t =>
      rcases hk : st.get_key net c (TradingTag.valid t) with ⟨res, st', log⟩
      have hst' : st'.headers = st.headers := by
        rw [← gk_headers st net c (TradingTag.valid t), hk]
      have hklog : headersAre st.headers log = true := by
        have h := gk_log_headers st net c (TradingTag.valid t)
        rw [hk] at h
        exact h
      cases res with
      | error e =>
          cases e with
          | api ex =>
              cases hkind : ex.kind <;>
                simp [AlgoBullsAPI.stop_strategy_algotrading, hk, hkind, hklog]
          | jsonDecode => simp [AlgoBullsAPI.stop_strategy_algotrading, hk, hklog]
          | attributeError => simp [AlgoBullsAPI.stop_strategy_algotrading, hk, hklog]
          | notImplemented => simp [AlgoBullsAPI.stop_strategy_algotrading, hk, hklog]
      | ok key =>
          rcases hsr : st'.send_request net "post" (modeEndpoint t) SERVER_ENDPOINT
              none (some (Json.obj
                [("method", Json.str "update"), ("newVal", Json.num 0),
                 ("key", optJson key), ("record", Json.obj [("status", Json.num 2)])]))
              true with ⟨res2, req2⟩
          have hreq : req2 = mkReq st' "post" (modeEndpoint t) SERVER_ENDPOINT
              none (some (Json.obj
                [("method", Json.str "update"), ("newVal", Json.num 0),
                 ("key", optJson key), ("record", Json.obj [("status", Json.num 2)])]))
              true := by
            rw [← send_request_snd st' net "post" (modeEndpoint t) SERVER_ENDPOINT
              none (some (Json.obj
                [("method", Json.str "update"), ("newVal", Json.num 0),
                 ("key", optJson key), ("record", Json.obj [("status", Json.num 2)])]))
              true, hsr]
          have h2 : headersAre st.headers [req2] = true := by
            rw [hreq, ← hst']
            exact mkReq_auth_headers st' _ _ _ _ _
          cases res2 with
          | ok body =>
              simp [AlgoBullsAPI.stop_strategy_algotrading, hk, hsr,
                headersAre_append, hklog, h2]
          | apiError e =>
              cases hkind : e.kind <;>
                simp [AlgoBullsAPI.stop_strategy_algotrading, hk, hsr, hkind,
                  headersAre_append, hklog, h2]
          | decodeError =>
              simp [AlgoBullsAPI.stop_strategy_algotrading, hk, hsr,
                headersAre_append, hklog, h2]

lemma job_status_headers (st : AlgoBullsAPI) (net : Net) (c : String)
    (tag : TradingTag) :
    headersAre st.headers (st.get_job_status net c tag).log = true := by
  rcases hk : st.get_key net c tag with ⟨res, st', log⟩
  have hst' : st'.headers = st.headers := by
    rw [← gk_headers st net c tag, hk]
  have hklog : headersAre st.headers log = true := by
    have h := gk_log_headers st net c tag
    rw [hk] at h
    exact h
  cases res with
  | error e => simp [AlgoBullsAPI.get_job_status, hk, hklog]
  | ok key =>
      rcases hsr : st'.send_request net "get" "v2/user/strategy/status"
          SERVER_ENDPOINT (some (Json.obj [("key", optJson key)])) none true
          with ⟨res2, req2⟩
      have hreq : req2 = mkReq st' "get" "v2/user/strategy/status"
          SERVER_ENDPOINT (some (Json.obj [("key", optJson key)])) none true := by
        rw [← send_request_snd st' net "get" "v2/user/strategy/status"
          SERVER_ENDPOINT (some (Json.obj [("key", optJson key)])) none true, hsr]
      have h2 : headersAre st.headers [req2] = true := by
        rw [hreq, ← hst']
        exact mkReq_auth_headers st' _ _ _ _ _
      simp [AlgoBullsAPI.get_job_status, hk, hsr, headersAre_append, hklog, h2]

lemma logs_headers (st : AlgoBullsAPI) (net : Net) (c : String) (tag : TradingTag) :
    headersAre st.headers (st.get_logs net c tag).log = true := by
  rcases hk : st.get_key net c tag with ⟨res, st', log⟩
  have hst' : st'.headers = st.headers := by
    rw [← gk_headers st net c tag, hk]
  have hklog : headersAre st.headers log = true := by
    have h := gk_log_headers st net c tag
    rw [hk] at h
    exact h
  cases res with
  | error e => simp [AlgoBullsAPI.get_logs, hk, hklog]
  | ok key =>
      rcases hsr : st'.send_request net "post" "v2/user/strategy/logs"
          SERVER_ENDPOINT none (some (Json.obj [("key", optJson key)])) true
          with ⟨res2, req2⟩
      have hreq : req2 = mkReq st' "post" "v2/user/strategy/logs"
          SERVER_ENDPOINT none (some (Json.obj [("key", optJson key)])) true := by
        rw [← send_request_snd st' net "post" "v2/user/strategy/logs"
          SERVER_ENDPOINT none (some (Json.obj [("key", optJson key)])) true, hsr]
      have h2 : headersAre st.headers [req2] = true := by
        rw [hreq, ← hst']
        exact mkReq_auth_headers st' _ _ _ _ _
      simp [AlgoBullsAPI.get_logs, hk, hsr, headersAre_append, hklog, h2]

lemma reports_headers (st : AlgoBullsAPI) (net : Net) (c : String)
    (tag : TradingTag) (rt : ReportTag) :
    headersAre st.headers (st.get_reports net c tag rt).log = true := by
  cases rt with
  | invalid s => simp [AlgoBullsAPI.get_reports, headersAre]
  | valid r =>
      rcases hk : st.get_key net c tag with ⟨res, st', log⟩
      have hst' : st'.headers = st.headers := by
        rw [← gk_headers st net c tag, hk]
      have hklog : headersAre st.headers log = true := by
        have h := gk_log_headers st net c tag
        rw [hk] at h
        exact h
      cases res with
      | error e => simp [AlgoBullsAPI.get_reports, hk, hklog]
      | ok key =>
          rcases hsr : st'.send_request net "get" (reportEndpoint r)
              SERVER_ENDPOINT (some (Json.obj [("key", optJson key)])) none true
              with ⟨res2, req2⟩
          have hreq : req2 = mkReq st' "get" (reportEndpoint r)
              SERVER_ENDPOINT (some (Json.obj [("key", optJson key)])) none true := by
            rw [← send_request_snd st' net "get" (reportEndpoint r)
              SERVER_ENDPOINT (some (Json.obj [("key", optJson key)])) none true, hsr]
          have h2 : headersAre st.headers [req2] = true := by
            rw [hreq, ← hst']
            exact mkReq_auth_headers st' _ _ _ _ _
          simp [AlgoBullsAPI.get_reports, hk, hsr, headersAre_append, hklog, h2]

lemma runOp_headers_auth (op : ClientOp) (st : AlgoBullsAPI) (net : Net)
    (h : requiresAuth op = true) :
    headersAre st.headers (runOp op st net).log = true := by
  cases op with
  | createStrategy n d v =>
      simpa [runOp, OpResult.forget, AlgoBullsAPI.create_strategy] using
        mkReq_auth_headers st "post" "v2/user/strategy/build/python" SERVER_ENDPOINT
          none (some (Json.obj
            [("strategyName", Json.str n), ("strategyDetails", Json.str d),
             ("abcVersion", Json.str v)]))
  | updateStrategy n d v =>
      simpa [runOp, OpResult.forget, AlgoBullsAPI.update_strategy] using
        mkReq_auth_headers st "put" "v2/user/strategy/build/python" SERVER_ENDPOINT
          none (some (Json.obj
            [("strategyName", Json.str n), ("strategyDetails", Json.str d),
             ("abcVersion", Json.str v)]))
  | getAllStrategies =>
      simpa [runOp, OpResult.forget, AlgoBullsAPI.get_all_strategies] using
        mkReq_auth_headers st "options" "v2/user/strategy/build/python"
          SERVER_ENDPOINT none none
  | getStrategyDetails c =>
      simpa [runOp, OpResult.forget, AlgoBullsAPI.get_strategy_details] using
        mkReq_auth_headers st "get" "v2/user/strategy/build/python" SERVER_ENDPOINT
          (some (Json.obj [("strategyCode", Json.str c)])) none
  | searchInstrument i => simp [requiresAuth] at h
  | setStrategyConfig c cfg tag =>
      simpa [runOp, OpResult.forget] using config_headers st net c cfg tag
  | startAlgo c tag =>
      simpa [runOp, OpResult.forget] using start_headers st net c tag
  | stopAlgo c tag =>
      simpa [runOp, OpResult.forget] using stop_headers st net c tag
  | jobStatus c tag =>
      simpa [runOp, OpResult.forget] using job_status_headers st net c tag
  | getLogs c tag =>
      simpa [runOp, OpResult.forget] using logs_headers st net c tag
  | getReports c tag rt =>
      simpa [runOp, OpResult.forget] using reports_headers st net c tag rt

lemma search_instrument_log (st : AlgoBullsAPI) (net : Net) (i : String) :
    (st.search_instrument net i).log =
      [{ method := "get", url := SERVER_ENDPOINT ++ "v2/instrument/search",
         headers := none,
         params := some (Json.obj [("instrument", Json.str i)]),
         json_data := none }] := rfl

lemma constKind_403 (net : Net) (hs : ∀ r, (net r).status = 403) :
    constKind net ErrorKind.forbidden := by
  intro st m ep bu p jd a
  simp only [AlgoBullsAPI.send_request]
  rw [hs]
  norm_num

lemma constKind_402 (net : Net) (hs : ∀ r, (net r).status = 402) :
    constKind net ErrorKind.insufficientBalance := by
  intro st m ep bu p jd a
  simp only [AlgoBullsAPI.send_request]
  rw [hs]
  norm_num

lemma constKind_500 (net : Net) (hs : ∀ r, (net r).status = 500) :
    constKind net ErrorKind.internalServerError := by
  intro st m ep bu p jd a
  simp only [AlgoBullsAPI.send_request]
  rw [hs]
  norm_num

lemma fetch_key_char (st : AlgoBullsAPI) (net : Net) (c : String) (t : TradingType) :
    st.fetch_key net c t =
      ((match (st.send_request net "options" "v2/portfolio/strategy" SERVER_ENDPOINT
          none (some (Json.obj
            [("strategyId", Json.str c), ("tradingType", Json.num t.value)]))
          true).1 with
        | SendResult.ok body => pyDictGet body "key"
        | SendResult.apiError e => Except.error (OpError.api e)
        | SendResult.decodeError => Except.error OpError.jsonDecode),
       [regRequest st c t]) := by
  rcases hsr : st.send_request net "options" "v2/portfolio/strategy" SERVER_ENDPOINT
      none (some (Json.obj
        [("strategyId", Json.str c), ("tradingType", Json.num t.value)]))
      true with ⟨res, req⟩
  have hreq : req = regRequest st c t := by
    have h2 : regRequest st c t = (st.send_request net "options"
        "v2/portfolio/strategy" SERVER_ENDPOINT none (some (Json.obj
          [("strategyId", Json.str c), ("tradingType", Json.num t.value)]))
        true).2 := rfl
    rw [hsr] at h2
    exact h2.symm
  simp [AlgoBullsAPI.fetch_key, hsr, hreq]

lemma gk_constKind (st : AlgoBullsAPI) (net : Net) (c : String) (t : TradingType)
    (K : ErrorKind) (hK : constKind net K) (hs : st.slot t = none) :
    ∃ e, st.get_key net c (TradingTag.valid t) =
        ⟨Except.error (OpError.api e), st, [regRequest st c t]⟩ ∧
      e.kind = K := by
  obtain ⟨e, h1, h2⟩ := hK st "options" "v2/portfolio/strategy" SERVER_ENDPOINT
    none (some (Json.obj
      [("strategyId", Json.str c), ("tradingType", Json.num t.value)])) true
  refine ⟨e, ?_, h2⟩
  rw [gk_uncached st net c t hs, fetch_key_char st net c t, h1]

lemma start_swallow (st : AlgoBullsAPI) (net : Net) (c : String) (t : TradingType)
    (K : ErrorKind) (hK : constKind net K)
    (hsw : K = ErrorKind.forbidden ∨ K = ErrorKind.insufficientBalance) :
    (st.start_strategy_algotrading net c (TradingTag.valid t)).result =
      Except.ok none := by
  rcases hs : st.slot t with _ | k
  · obtain ⟨e, hg, hek⟩ := gk_constKind st net c t K hK hs
    rcases hsw with h | h <;> subst h <;>
      simp [AlgoBullsAPI.start_strategy_algotrading, hg, hek]
  · have hgk := gk_cached st net c t k hs
    obtain ⟨e2, h1, h2⟩ := hK st "post" (modeEndpoint t) SERVER_ENDPOINT none
      (some (Json.obj
        [("method", Json.str "update"), ("newVal", Json.num 1),
         ("key", optJson (some k)),
         ("record", Json.obj [("status", Json.num 0)])])) true
    rcases hsr : st.send_request net "post" (modeEndpoint t) SERVER_ENDPOINT none
        (some (Json.obj
          [("method", Json.str "update"), ("newVal", Json.num 1),
           ("key", optJson (some k)),
           ("record", Json.obj [("status", Json.num 0)])])) true with ⟨res2, req2⟩
    rw [hsr] at h1
    have hres2 : res2 = SendResult.apiError e2 := h1
    rcases hsw with h | h <;> subst h <;>
      simp [AlgoBullsAPI.start_strategy_algotrading, hgk, hsr, hres2, h2]

lemma stop_swallow (st : AlgoBullsAPI) (net : Net) (c : String) (t : TradingType)
    (K : ErrorKind) (hK : constKind net K)
    (hsw : K = ErrorKind.forbidden ∨ K = ErrorKind.insufficientBalance) :
    (st.stop_strategy_algotrading net c (TradingTag.valid t)).result =
      Except.ok none := by
  rcases hs : st.slot t with _ | k
  · obtain ⟨e, hg, hek⟩ := gk_constKind st net c t K hK hs
    rcases hsw with h | h <;> subst h <;>
      simp [AlgoBullsAPI.stop_strategy_algotrading, hg, hek]
  · have hgk := gk_cached st net c t k hs
    obtain ⟨e2, h1, h2⟩ := hK st "post" (modeEndpoint t) SERVER_ENDPOINT none
      (some (Json.obj
        [("method", Json.str "update"), ("newVal", Json.num 0),
         ("key", optJson (some k)),
         ("record", Json.obj [("status", Json.num 2)])])) true
    rcases hsr : st.send_request net "post" (modeEndpoint t) SERVER_ENDPOINT none
        (some (Json.obj
          [("method", Json.str "update"), ("newVal", Json.num 0),
           ("key", optJson (some k)),
           ("record", Json.obj [("status", Json.num 2)])])) true with ⟨res2, req2⟩
    rw [hsr] at h1
    have hres2 : res2 = SendResult.apiError e2 := h1
    rcases hsw with h | h <;> subst h <;>
      simp [AlgoBullsAPI.stop_strategy_algotrading, hgk, hsr, hres2, h2]

lemma job_constKind (st : AlgoBullsAPI) (net : Net) (c : String) (t : TradingType)
    (K : ErrorKind) (hK : constKind net K) :
    ∃ e, (st.get_job_status net c (TradingTag.valid t)).result =
        Except.error (OpError.api e) ∧ e.kind = K := by
  rcases hs : st.slot t with _ | k
  · obtain ⟨e, hg, hek⟩ := gk_constKind st net c t K hK hs
    exact ⟨e, by simp [AlgoBullsAPI.get_job_status, hg], hek⟩
  · have hgk := gk_cached st net c t k hs
    obtain ⟨e2, h1, h2⟩ := hK st "get" "v2/user/strategy/status" SERVER_ENDPOINT
      (some (Json.obj [("key", optJson (some k))])) none true
    rcases hsr : st.send_request net "get" "v2/user/strategy/status" SERVER_ENDPOINT
        (some (Json.obj [("key", optJson (some k))])) none true with ⟨res2, req2⟩
    rw [hsr] at h1
    have hres2 : res2 = SendResult.apiError e2 := h1
    exact ⟨e2, by
      simp [AlgoBullsAPI.get_job_status, hgk, hsr, hres2, SendResult.toExcept], h2⟩

lemma start_propagate (st : AlgoBullsAPI) (net : Net) (c : String) (t : TradingType)
    (K : ErrorKind) (hK : constKind net K) (h1k : K ≠ ErrorKind.forbidden)
    (h2k : K ≠ ErrorKind.insufficientBalance) :
    ∃ e, (st.start_strategy_algotrading net c (TradingTag.valid t)).result =
        Except.error (OpError.api e) ∧ e.kind = K := by
  rcases hs : st.slot t with _ | k
  · obtain ⟨e, hg, hek⟩ := gk_constKind st net c t K hK hs
    refine ⟨e, ?_, hek⟩
    cases K <;> simp_all [AlgoBullsAPI.start_strategy_algotrading, hg, hek]
  · have hgk := gk_cached st net c t k hs
    obtain ⟨e2, h1, h2⟩ := hK st "post" (modeEndpoint t) SERVER_ENDPOINT none
      (some (Json.obj
        [("method", Json.str "update"), ("newVal", Json.num 1),
         ("key", optJson (some k)),
         ("record", Json.obj [("status", Json.num 0)])])) true
    rcases hsr : st.send_request net "post" (modeEndpoint t) SERVER_ENDPOINT none
        (some (Json.obj
          [("method", Json.str "update"), ("newVal", Json.num 1),
           ("key", optJson (some k)),
           ("record", Json.obj [("status", Json.num 0)])])) true with ⟨res2, req2⟩
    rw [hsr] at h1
    have hres2 : res2 = SendResult.apiError e2 := h1
    refine ⟨e2, ?_, h2⟩
    cases K <;>
      simp_all [AlgoBullsAPI.start_strategy_algotrading, hgk, hsr, hres2, h2]

lemma stop_propagate (st : AlgoBullsAPI) (net : Net) (c : String) (t : TradingType)
    (K : ErrorKind) (hK : constKind net K) (h1k : K ≠ ErrorKind.forbidden)
    (h2k : K ≠ ErrorKind.insufficientBalance) :
    ∃ e, (st.stop_strategy_algotrading net c (TradingTag.valid t)).result =
        Except.error (OpError.api e) ∧ e.kind = K := by
  rcases hs : st.slot t with _ | k
  · obtain ⟨e, hg, hek⟩ := gk_constKind st net c t K hK hs
    refine ⟨e, ?_, hek⟩
    cases K <;> simp_all [AlgoBullsAPI.stop_strategy_algotrading, hg, hek]
  · have hgk := gk_cached st net c t k hs
    obtain ⟨e2, h1, h2⟩ := hK st "post" (modeEndpoint t) SERVER_ENDPOINT none
      (some (Json.obj
        [("method", Json.str "update"), ("newVal", Json.num 0),
         ("key", optJson (some k)),
         ("record", Json.obj [("status", Json.num 2)])])) true
    rcases hsr : st.send_request net "post" (modeEndpoint t) SERVER_ENDPOINT none
        (some (Json.obj
          [("method", Json.str "update"), ("newVal", Json.num 0),
           ("key", optJson (some k)),
           ("record", Json.obj [("status", Json.num 2)])])) true with ⟨res2, req2⟩
    rw [hsr] at h1
    have hres2 : res2 = SendResult.apiError e2 := h1
    refine ⟨e2, ?_, h2⟩
    cases K <;>
      simp_all [AlgoBullsAPI.stop_strategy_algotrading, hgk, hsr, hres2, h2]

lemma start_no_leak (st : AlgoBullsAPI) (net : Net) (c : String) (tag : TradingTag)
    (e : APIException)
    (h : (st.start_strategy_algotrading net c tag).result =
      Except.error (OpError.api e)) :
    e.kind ≠ ErrorKind.forbidden ∧ e.kind ≠ ErrorKind.insufficientBalance := by
  cases tag with
  | invalid s => simp [AlgoBullsAPI.start_strategy_algotrading] at h
  | valid t =>
      rcases hk : st.get_key net c (TradingTag.valid t) with ⟨res, st', log⟩
      cases res with
      | error e0 =>
          cases e0 with
          | api ex =>
              cases hkind : ex.kind <;>
                simp_all [AlgoBullsAPI.start_strategy_algotrading, hk, hkind]
          | jsonDecode => simp [AlgoBullsAPI.start_strategy_algotrading, hk] at h
          | attributeError => simp [AlgoBullsAPI.start_strategy_algotrading, hk] at h
          | notImplemented => simp [AlgoBullsAPI.start_strategy_algotrading, hk] at h
      | ok key =>
          rcases hsr : st'.send_request net "post" (modeEndpoint t) SERVER_ENDPOINT
              none (some (Json.obj
                [("method", Json.str "update"), ("newVal", Json.num 1),
                 ("key", optJson key), ("record", Json.obj [("status", Json.num 0)])]))
              true with ⟨res2, req2⟩
          cases res2 with
          | ok body =>
              simp [AlgoBullsAPI.start_strategy_algotrading, hk, hsr] at h
          | apiError e2 =>
              cases hkind : e2.kind <;>
                simp_all [AlgoBullsAPI.start_strategy_algotrading, hk, hsr, hkind]
          | decodeError =>
              simp [AlgoBullsAPI.start_strategy_algotrading, hk, hsr] at h

lemma stop_no_leak (st : AlgoBullsAPI) (net : Net) (c : String) (tag : TradingTag)
    (e : APIException)
    (h : (st.stop_strategy_algotrading net c tag).result =
      Except.error (OpError.api e)) :
    e.kind ≠ ErrorKind.forbidden ∧ e.kind ≠ ErrorKind.insufficientBalance := by
  cases tag with
  | invalid s => simp [AlgoBullsAPI.stop_strategy_algotrading] at h
  | valid t =>
      rcases hk : st.get_key net c (TradingTag.valid t) with ⟨res, st', log⟩
      cases res with
      | error e0 =>
          cases e0 with
          | api ex =>
              cases hkind : ex.kind <;>
                simp_all [AlgoBullsAPI.stop_strategy_algotrading, hk, hkind]
          | jsonDecode => simp [AlgoBullsAPI.stop_strategy_algotrading, hk] at h
          | attributeError => simp [AlgoBullsAPI.stop_strategy_algotrading, hk] at h
          | notImplemented => simp [AlgoBullsAPI.stop_strategy_algotrading, hk] at h
      | ok key =>
          rcases hsr : st'.send_request net "post" (modeEndpoint t) SERVER_ENDPOINT
              none (some (Json.obj
                [("method", Json.str "update"), ("newVal", Json.num 0),
                 ("key", optJson key), ("record", Json.obj [("status", Json.num 2)])]))
              true with ⟨res2, req2⟩
          cases res2 with
          | ok body =>
              simp [AlgoBullsAPI.stop_strategy_algotrading, hk, hsr] at h
          | apiError e2 =>
              cases hkind : e2.kind <;>
                simp_all [AlgoBullsAPI.stop_strategy_algotrading, hk, hsr, hkind]
          | decodeError =>
              simp [AlgoBullsAPI.stop_strategy_algotrading, hk, hsr] at h

/-- Claim C2: errors propagate to the caller uncaught, except that
`start_strategy_algotrading` and `stop_strategy_algotrading` swallow
Forbidden (403) and InsufficientBalance (402) and return no result, while
the same two status codes inside `get_job_status` propagate; other kinds
(e.g. 500) propagate from start/stop too, and start/stop never surface a
Forbidden or InsufficientBalance error to the caller. -/
theorem C2_error_swallowing_asymmetry (st : AlgoBullsAPI) (net : Net) (c : String) (t : TradingType) :
    ((∀ r, (net r).status = 403) →
      (st.start_strategy_algotrading net c (TradingTag.valid t)).result =
          Except.ok none ∧
        (st.stop_strategy_algotrading net c (TradingTag.valid t)).result =
          Except.ok none ∧
        ∃ e, (st.get_job_status net c (TradingTag.valid t)).result =
            Except.error (OpError.api e) ∧ e.kind = ErrorKind.forbidden) ∧
    ((∀ r, (net r).status = 402) →
      (st.start_strategy_algotrading net c (TradingTag.valid t)).result =
          Except.ok none ∧
        (st.stop_strategy_algotrading net c (TradingTag.valid t)).result =
          Except.ok none ∧
        ∃ e, (st.get_job_status net c (TradingTag.valid t)).result =
            Except.error (OpError.api e) ∧ e.kind = ErrorKind.insufficientBalance) ∧
    ((∀ r, (net r).status = 500) →
      (∃ e, (st.start_strategy_algotrading net c (TradingTag.valid t)).result =
          Except.error (OpError.api e) ∧ e.kind = ErrorKind.internalServerError) ∧
      (∃ e, (st.stop_strategy_algotrading net c (TradingTag.valid t)).result =
          Except.error (OpError.api e) ∧ e.kind = ErrorKind.internalServerError) ∧
      (∃ e, (st.get_job_status net c (TradingTag.valid t)).result =
          Except.error (OpError.api e) ∧ e.kind = ErrorKind.internalServerError)) ∧
    (∀ e, (st.start_strategy_algotrading net c (TradingTag.valid t)).result =
        Except.error (OpError.api e) →
      e.kind ≠ ErrorKind.forbidden ∧ e.kind ≠ ErrorKind.insufficientBalance) ∧
    (∀ e, (st.stop_strategy_algotrading net c (TradingTag.valid t)).result =
        Except.error (OpError.api e) →
      e.kind ≠ ErrorKind.forbidden ∧ e.kind ≠ ErrorKind.insufficientBalance) := by
  refine ⟨?_, ?_, ?_, ?_, ?_⟩
  · intro hs
    have hK := constKind_403 net hs
    exact ⟨start_swallow st net c t _ hK (Or.inl rfl),
      stop_swallow st net c t _ hK (Or.inl rfl),
      job_constKind st net c t _ hK⟩
  · intro hs
    have hK := constKind_402 net hs
    exact ⟨start_swallow st net c t _ hK (Or.inr rfl),
      stop_swallow st net c t _ hK (Or.inr rfl),
      job_constKind st net c t _ hK⟩
  · intro hs
    have hK := constKind_500 net hs
    exact ⟨start_propagate st net c t _ hK (by simp) (by simp),
      stop_propagate st net c t _ hK (by simp) (by simp),
      job_constKind st net c t _ hK⟩
  · intro e he
    exact start_no_leak st net c (TradingTag.valid t) e he
  · intro e he
    exact stop_no_leak st net c (TradingTag.valid t) e he

lemma gk_slot_preserved (st : AlgoBullsAPI) (net : Net) (c : String)
    (tag : TradingTag) (t : TradingType) (k : Json) (h : st.slot t = some k) :
    (st.get_key net c tag).state.slot t = some k := by
  cases tag with
  | invalid s => rw [gk_invalid]; exact h
  | valid t' =>
      by_cases ht : t' = t
      · subst ht
        rw [gk_cached st net c t' k h]
        exact h
      · rw [gk_frame st net c t' t (Ne.symm ht)]
        exact h

lemma runOp_slot_preserved (op : ClientOp) (st : AlgoBullsAPI) (net : Net)
    (t : TradingType) (k : Json) (h : st.slot t = some k) :
    (runOp op st net).state.slot t = some k := by
  cases op with
  | createStrategy n d v => exact h
  | updateStrategy n d v => exact h
  | getAllStrategies => exact h
  | getStrategyDetails c => exact h
  | searchInstrument i => exact h
  | setStrategyConfig c cfg tag =>
      show (st.set_strategy_config net c cfg tag).state.slot t = some k
      rw [(config_decomp st net c cfg tag).1]
      exact gk_slot_preserved st net c tag t k h
  | startAlgo c tag =>
      show (st.start_strategy_algotrading net c tag).state.slot t = some k
      rw [(start_decomp st net c tag).1]
      exact gk_slot_preserved st net c tag t k h
  | stopAlgo c tag =>
      show (st.stop_strategy_algotrading net c tag).state.slot t = some k
      rw [(stop_decomp st net c tag).1]
      exact gk_slot_preserved st net c tag t k h
  | jobStatus c tag =>
      show (st.get_job_status net c tag).state.slot t = some k
      rw [(job_status_decomp st net c tag).1]
      exact gk_slot_preserved st net c tag t k h
  | getLogs c tag =>
      show (st.get_logs net c tag).state.slot t = some k
      rw [(logs_decomp st net c tag).1]
      exact gk_slot_preserved st net c tag t k h
  | getReports c tag rt =>
      show (st.get_reports net c tag rt).state.slot t = some k
      cases rt with
      | invalid s => rw [reports_decomp_invalid]; exact h
      | valid r =>
          rw [(reports_decomp_valid st net c tag r).1]
          exact gk_slot_preserved st net c tag t k h

/-- Claim C4 (amended): the key cache is keyed by trading mode only: once a
key is cached for a mode, `__get_key` returns it for every strategy code,
with no registration request and unchanged state, and no client operation
ever invalidates or refreshes the cached key. -/
theorem C4_key_cache_per_mode_amended (st : AlgoBullsAPI) (net : Net) (t : TradingType) (k : Json)
    (h : st.slot t = some k) :
    (∀ c, st.get_key net c (TradingTag.valid t) = ⟨Except.ok (some k), st, []⟩) ∧
    (∀ op, (runOp op st net).state.slot t = some k) :=
  ⟨fun c => gk_cached st net c t k h,
   fun op => runOp_slot_preserved op st net t k h⟩

/-- Claim C5: the three cache slots are independent: fetching the key for
one mode leaves the authorization header and the other two slots unchanged,
and its result, request log, and slot update depend only on the headers and
on that mode own slot, never on the other two slots. -/
theorem C5_cache_slot_independence (net : Net) (c : String) (t : TradingType) :
    (∀ st : AlgoBullsAPI,
      (st.get_key net c (TradingTag.valid t)).state.headers = st.headers ∧
      ∀ t', t' ≠ t →
        (st.get_key net c (TradingTag.valid t)).state.slot t' = st.slot t') ∧
    (∀ st₁ st₂ : AlgoBullsAPI,
      st₁.headers = st₂.headers → st₁.slot t = st₂.slot t →
      (st₁.get_key net c (TradingTag.valid t)).result =
          (st₂.get_key net c (TradingTag.valid t)).result ∧
        (st₁.get_key net c (TradingTag.valid t)).log =
          (st₂.get_key net c (TradingTag.valid t)).log ∧
        (st₁.get_key net c (TradingTag.valid t)).state.slot t =
          (st₂.get_key net c (TradingTag.valid t)).state.slot t) :=
  ⟨fun st => ⟨gk_headers st net c _, fun t' ht => gk_frame st net c t t' ht⟩,
   fun st₁ st₂ hh hs => gk_congr st₁ st₂ net c t hh hs⟩

/-- Claim C6: every value passed as a trading-mode tag to key resolution or
to start/stop endpoint selection, and every report-kind tag passed to
`get_reports`, that is not one of the recognized enumerated values, makes
the operation fail with the NotImplemented kind, with no HTTP request sent
and the client state unchanged. -/
theorem C6_invalid_tag_not_implemented (st : AlgoBullsAPI) (net : Net) (c s : String) (cfg : Json)
    (tag : TradingTag) (rt : TradingReportType) :
    st.get_key net c (TradingTag.invalid s) =
        ⟨Except.error OpError.notImplemented, st, []⟩ ∧
      st.set_strategy_config net c cfg (TradingTag.invalid s) =
        ⟨Except.error OpError.notImplemented, st, []⟩ ∧
      st.start_strategy_algotrading net c (TradingTag.invalid s) =
        ⟨Except.error OpError.notImplemented, st, []⟩ ∧
      st.stop_strategy_algotrading net c (TradingTag.invalid s) =
        ⟨Except.error OpError.notImplemented, st, []⟩ ∧
      st.get_job_status net c (TradingTag.invalid s) =
        ⟨Except.error OpError.notImplemented, st, []⟩ ∧
      st.get_logs net c (TradingTag.invalid s) =
        ⟨Except.error OpError.notImplemented, st, []⟩ ∧
      st.get_reports net c (TradingTag.invalid s) (ReportTag.valid rt) =
        ⟨Except.error OpError.notImplemented, st, []⟩ ∧
      st.get_reports net c tag (ReportTag.invalid s) =
        ⟨Except.error OpError.notImplemented, st, []⟩ :=
  ⟨rfl, rfl, rfl, rfl, rfl, rfl, rfl, rfl⟩

/-- Claim C7: for every input string and every token state of the client,
`search_instrument` sends exactly one request, and that request carries no
Authorization header, also after `set_access_token`. -/
theorem C7_search_instrument_no_auth_header (st : AlgoBullsAPI) (net : Net) (instrument : String) :
    (st.search_instrument net instrument).log =
        [{ method := "get", url := SERVER_ENDPOINT ++ "v2/instrument/search",
           headers := none,
           params := some (Json.obj [("instrument", Json.str instrument)]),
           json_data := none }] ∧
      ∀ token, ((st.set_access_token token).search_instrument net instrument).log =
        [{ method := "get", url := SERVER_ENDPOINT ++ "v2/instrument/search",
           headers := none,
           params := some (Json.obj [("instrument", Json.str instrument)]),
           json_data := none }] :=
  ⟨rfl, fun _ => rfl⟩

/-- Claim C8: before `set_access_token` is ever called (headers still None),
every request of every operation is sent with no Authorization header; after
`set_access_token token`, every request of every authorized operation
carries the header `Authorization: token` verbatim, with no Bearer prefix. -/
theorem C8_authorization_header_verbatim (op : ClientOp) (st : AlgoBullsAPI) (net : Net) :
    (st.headers = none →
      headersAre none ((runOp op st net).log) = true) ∧
    (∀ token, requiresAuth op = true →
      headersAre (some [("Authorization", token)])
        ((runOp op (st.set_access_token token) net).log) = true) := by
  constructor
  · intro h0
    by_cases ha : requiresAuth op = true
    · have h := runOp_headers_auth op st net ha
      rwa [h0] at h
    · cases op <;> first
        | exact absurd rfl ha
        | simp [runOp, OpResult.forget, AlgoBullsAPI.search_instrument, headersAre,
            send_request_snd, mkReq]
  · intro token ha
    have h := runOp_headers_auth op (st.set_access_token token) net ha
    exact h

theorem C2_error_swallowing_asymmetry_witness :
    (AlgoBullsAPI.init.start_strategy_algotrading net403 "c"
        (TradingTag.valid TradingType.BACKTESTING)).result = Except.ok none ∧
      (AlgoBullsAPI.init.stop_strategy_algotrading net403 "c"
        (TradingTag.valid TradingType.BACKTESTING)).result = Except.ok none ∧
      ∃ e, (AlgoBullsAPI.init.get_job_status net403 "c"
          (TradingTag.valid TradingType.BACKTESTING)).result =
          Except.error (OpError.api e) ∧ e.kind = ErrorKind.forbidden :=
  (C2_error_swallowing_asymmetry AlgoBullsAPI.init net403 "c" TradingType.BACKTESTING).1
    (by intro r; rfl)

theorem C3_at_most_one_registration_amended_witness :
    countReg (runOp (ClientOp.jobStatus "c" (TradingTag.valid TradingType.BACKTESTING))
        AlgoBullsAPI.init netGoodKey).log +
      countReg (runOp (ClientOp.jobStatus "c" (TradingTag.valid TradingType.BACKTESTING))
        (runOp (ClientOp.jobStatus "c" (TradingTag.valid TradingType.BACKTESTING))
          AlgoBullsAPI.init netGoodKey).state netGoodKey).log ≤ 1 ∧
    countReg (runOp (ClientOp.jobStatus "c" (TradingTag.valid TradingType.BACKTESTING))
        (runOp (ClientOp.jobStatus "c" (TradingTag.valid TradingType.BACKTESTING))
          AlgoBullsAPI.init netGoodKey).state netGoodKey).log = 0 :=
  C3_at_most_one_registration_amended (ClientOp.jobStatus "c" (TradingTag.valid TradingType.BACKTESTING))
    AlgoBullsAPI.init netGoodKey rfl
    (fun _ _ => ⟨rfl, Json.obj [("key", Json.str "K")], Json.str "K", rfl, rfl⟩)

/-- Counterexample to claim C3 as stated: against a backend whose
registration response is 200 with an empty JSON object (no `key` field), two
sequential `get_job_status` calls issue two registration requests, because
the fetched `None` key leaves the cache slot empty. -/
theorem C3_two_registrations_counterexample :
    countReg (runOp (ClientOp.jobStatus "c" (TradingTag.valid TradingType.BACKTESTING))
        AlgoBullsAPI.init net0).log +
      countReg (runOp (ClientOp.jobStatus "c" (TradingTag.valid TradingType.BACKTESTING))
        (runOp (ClientOp.jobStatus "c" (TradingTag.valid TradingType.BACKTESTING))
          AlgoBullsAPI.init net0).state net0).log = 2 := by rfl

theorem C4_key_cache_per_mode_amended_witness :
    stWithKey.get_key net0 "c" (TradingTag.valid TradingType.BACKTESTING) =
        ⟨Except.ok (some (Json.str "K")), stWithKey, []⟩ ∧
      (runOp (ClientOp.getLogs "c2" (TradingTag.valid TradingType.BACKTESTING))
        stWithKey net0).state.slot TradingType.BACKTESTING = some (Json.str "K") := by
  have h := C4_key_cache_per_mode_amended stWithKey net0 TradingType.BACKTESTING (Json.str "K") rfl
  exact ⟨h.1 "c", h.2 (ClientOp.getLogs "c2" (TradingTag.valid TradingType.BACKTESTING))⟩

/-- Counterexample to claim C4 as stated: against a backend assigning each
strategy code its own key, after an operation on code "A" a subsequent
operation on code "B" in the same mode sends key "A" (no re-registration),
although the backend assigns key "B" to the pair ("B", BACKTESTING). -/
theorem C4_key_ignores_strategy_code_counterexample :
    (runOp (ClientOp.jobStatus "B" (TradingTag.valid TradingType.BACKTESTING))
        (runOp (ClientOp.jobStatus "A" (TradingTag.valid TradingType.BACKTESTING))
          AlgoBullsAPI.init netC4).state netC4).log =
      [{ method := "get", url := "http://127.0.0.1:8000/v2/user/strategy/status",
         headers := none,
         params := some (Json.obj [("key", Json.str "A")]), json_data := none }] ∧
    pyDictGet ((netC4 (regRequest AlgoBullsAPI.init "B"
        TradingType.BACKTESTING)).jsonBody.getD Json.null) "key" =
      Except.ok (some (Json.str "B")) := by
  constructor <;> rfl

theorem C5_cache_slot_independence_witness :
    (AlgoBullsAPI.init.get_key net0 "c"
        (TradingTag.valid TradingType.BACKTESTING)).state.headers =
        AlgoBullsAPI.init.headers ∧
      (AlgoBullsAPI.init.get_key net0 "c"
        (TradingTag.valid TradingType.BACKTESTING)).state.slot
          TradingType.PAPERTRADING =
        AlgoBullsAPI.init.slot TradingType.PAPERTRADING ∧
      (AlgoBullsAPI.init.get_key net0 "c"
          (TradingTag.valid TradingType.BACKTESTING)).result =
        (stWithPaper.get_key net0 "c"
          (TradingTag.valid TradingType.BACKTESTING)).result := by
  have h := C5_cache_slot_independence net0 "c" TradingType.BACKTESTING
  exact ⟨(h.1 AlgoBullsAPI.init).1,
    (h.1 AlgoBullsAPI.init).2 TradingType.PAPERTRADING (by decide),
    (h.2 AlgoBullsAPI.init stWithPaper rfl rfl).1⟩

theorem C8_authorization_header_verbatim_witness :
    headersAre none ((runOp ClientOp.getAllStrategies AlgoBullsAPI.init net0).log) =
        true ∧
      headersAre (some [("Authorization", "token-123")])
        ((runOp ClientOp.getAllStrategies
          (AlgoBullsAPI.init.set_access_token "token-123") net0).log) = true := by
  have h := C8_authorization_header_verbatim ClientOp.getAllStrategies AlgoBullsAPI.init net0
  exact ⟨h.1 rfl, h.2 "token-123" rfl⟩
